import Mathlib

/-
Verification of the multi-year financial statement generation engine
(the calculation module of the Project-Report repository).

The JavaScript source is shallowly embedded: JS numbers are modelled as
exact rationals (the engine performs only field arithmetic, guarded
divisions and comparisons, so the idealized decimal semantics matches the
intent of every spec-level claim; float rounding is not modelled).  JS
objects used as string-keyed result maps are modelled as association
lists where a write conses a new binding (the newest binding shadows the
older ones, exactly like property assignment followed by property
lookup).  Falsy-or fallbacks (x || y) are modelled explicitly: a numeric
fallback fires on 0 or absence, a string fallback on the empty string or
absence.  String helpers (toLowerCase, trim, includes, startsWith) are
reimplemented over the character list so that every definition is fully
executable inside Lean.
-/

namespace ProjectReport

/-! ## JS-style string helpers -/

/-- Model of s.toLowerCase() (character-wise lowering). -/
def jsLower (s : String) : String := ⟨s.data.map Char.toLower⟩

/-- Auxiliary: does the needle occur as an infix of the haystack? -/
def infixAux : List Char → List Char → Bool
  | _, [] => false
  | n, c :: t => n.isPrefixOf (c :: t) || infixAux n t

/-- Model of s.includes(sub). -/
def jsIncludes (s sub : String) : Bool :=
  sub.data.isPrefixOf s.data || infixAux sub.data s.data

/-- Model of s.startsWith(p). -/
def jsStartsWith (s p : String) : Bool := p.data.isPrefixOf s.data

/-- JS whitespace test (the characters relevant to this code base). -/
def isWs (c : Char) : Bool := c = ' ' || c = '\t' || c = '\n' || c = '\r'

/-- Model of s.trim(). -/
def jsTrim (s : String) : String :=
  ⟨((s.data.dropWhile isWs).reverse.dropWhile isWs).reverse⟩

/-- Is the character one of a-z or 0-9 (the characters kept by the
regex replace [^a-z0-9] applied after lowering)? -/
def isAlnumLower (c : Char) : Bool := (c ≥ 'a' && c ≤ 'z') || (c ≥ '0' && c ≤ '9')

/-- Model of name.toLowerCase().replace(nonAlnum, empty). -/
def normAlnum (s : String) : String := ⟨(jsLower s).data.filter isAlnumLower⟩

/-- Collapse every run of whitespace into a single underscore, as in the
regex replace of a whitespace run by an underscore. -/
def collapseWsAux : Bool → List Char → List Char
  | _, [] => []
  | inWs, c :: t =>
    if isWs c then
      if inWs then collapseWsAux true t else '_' :: collapseWsAux true t
    else c :: collapseWsAux false t

/-- Model of s.replace(whitespace-runs, underscore). -/
def collapseWs (s : String) : String := ⟨collapseWsAux false s.data⟩

/-- Digits 0-9 of a character list interpreted as a decimal number. -/
def digitsToNat : List Char → Nat
  | [] => 0
  | c :: t => digitsToNat t + c.toNat.sub 48 * 10 ^ t.length

/-- First run of four consecutive digits in the character list, as in the
regex match for four digits. -/
def firstFourDigits : List Char → Option Nat
  | [] => none
  | c :: t =>
    match c :: t with
    | c1 :: c2 :: c3 :: c4 :: _ =>
      if c1.isDigit && c2.isDigit && c3.isDigit && c4.isDigit then
        some (digitsToNat [c1, c2, c3, c4])
      else firstFourDigits t
    | _ => none

/-- Model of getYearNum: extract the first 4-digit number from the label,
0 when absent. -/
def getYearNum (s : String) : Nat := (firstFourDigits s.data).getD 0

/-- Model of parseInt on a label: optional leading spaces then a digit
run; none when the first non-space character is not a digit (JS NaN). -/
def jsParseInt (s : String) : Option Nat :=
  let t := s.data.dropWhile isWs
  let ds := t.takeWhile Char.isDigit
  if ds.isEmpty then none else some (digitsToNat ds)

/-- The characters of a label before the first dash, as in
label.split(dash)[0]. -/
def beforeDash (s : String) : String := ⟨s.data.takeWhile (fun c => c ≠ '-')⟩

/-! ## JS falsy-or helpers -/

/-- Model of (x || y) where x is an optional number: absence and 0 both
fall through to the default. -/
def jsOrOpt (o : Option ℚ) (d : ℚ) : ℚ :=
  match o with
  | some v => if v = 0 then d else v
  | none => d

/-- Model of (x || y) on numbers. -/
def jsOrQ (a b : ℚ) : ℚ := if a = 0 then b else a

/-- Model of (x || y) on an optional string (absence and the empty
string fall through). -/
def jsOrStr (o : Option String) (d : String) : String :=
  match o with
  | some s => if s = "" then d else s
  | none => d

/-- Truthiness of an optional number (undefined and 0 are falsy). -/
def jsTruthyOpt (o : Option ℚ) : Bool :=
  match o with
  | some v => v ≠ 0
  | none => false

/-! ## Result maps (JS objects keyed by strings) -/

/-- A result map: an association list; writing conses, lookup takes the
newest binding. -/
abbrev RMap := List (String × ℚ)

namespace RMap

/-- Property lookup: the most recent binding for the key, if any. -/
def find? : RMap → String → Option ℚ
  | [], _ => none
  | (k, v) :: t, s => if k = s then some v else find? t s

/-- Property write (newest binding shadows the older ones). -/
def set (m : RMap) (k : String) (v : ℚ) : RMap := (k, v) :: m

/-- Model of (m[k] || 0): 0 when absent. -/
def get (m : RMap) (k : String) : ℚ := (find? m k).getD 0

/-- Model of (m[k] !== undefined). -/
def has (m : RMap) (k : String) : Bool := (find? m k).isSome

@[simp] theorem find?_nil (s : String) : find? [] s = none := rfl

@[simp] theorem find?_cons (k : String) (v : ℚ) (t : RMap) (s : String) :
    find? ((k, v) :: t) s = if k = s then some v else find? t s := rfl

@[simp] theorem find?_set (m : RMap) (k : String) (v : ℚ) (s : String) :
    find? (set m k v) s = if k = s then some v else find? m s := rfl

end RMap

/-- The per-report result store: one result map per year-setting id. -/
abbrev Store := List (Nat × RMap)

namespace Store

/-- results[yearId] (an initialized id always has a binding; getD covers
the defensive undefined case). -/
def getY : Store → Nat → RMap
  | [], _ => []
  | (i, m) :: t, id => if i = id then m else getY t id

/-- results[yearId] = m (in-place update of the binding for the id, new
binding appended when the id is absent). -/
def setY : Store → Nat → RMap → Store
  | [], id, m => [(id, m)]
  | (i, mm) :: t, id, m => if i = id then (id, m) :: t else (i, mm) :: setY t id m

@[simp] theorem getY_nil (id : Nat) : getY [] id = [] := rfl

theorem getY_setY_same (s : Store) (id : Nat) (m : RMap) :
    getY (setY s id m) id = m := by
  induction s with
  | nil => simp [getY, setY]
  | cons h t ih =>
    obtain ⟨i, mm⟩ := h
    by_cases hi : i = id <;> simp [getY, setY, hi, ih]

theorem getY_setY_other (s : Store) (id id2 : Nat) (m : RMap) (h : id ≠ id2) :
    getY (setY s id m) id2 = getY s id2 := by
  induction s with
  | nil => simp [getY, setY, h]
  | cons hd t ih =>
    obtain ⟨i, mm⟩ := hd
    by_cases hi : i = id
    · subst hi; simp [getY, setY, h]
    · simp [setY, hi, getY, ih]

end Store

/-! ## Data model (rows, groups, year settings, external inputs) -/

structure DataPoint where
  year_setting : Nat
  value : ℚ
deriving Repr

structure Row where
  name : String
  is_hidden : Bool := false
  is_calculated : Bool := false
  is_total_row : Bool := false
  system_tag : Option String := none
  data : List DataPoint := []
deriving Repr

structure Group where
  name : String
  page_type : String
  system_tag : Option String := none
  cf_bucket : Option String := none
  nature : Option String := none
  rows : List Row := []
deriving Repr

structure YearSetting where
  id : Nat
  year : String
deriving Repr

structure LoanSummary where
  year_id : Nat
  annual_interest : ℚ := 0
  annual_principal : ℚ := 0
  closing_balance : ℚ := 0
  opening_balance : ℚ := 0
  loan_name : Option String := none
  is_new_loan : Bool := false
deriving Repr

structure GPRSettings where
  enabled : Bool
  firstYearIncrement : ℚ := 0
  subsequentIncrement : ℚ := 0
deriving Repr

structure WCSettings where
  wc_requirement_type : String := "new"
  existing_wc_limit : ℚ := 0
  existing_wc_interest_rate : ℚ := 10
  proposed_wc_limit : ℚ := 0
  proposed_wc_interest_rate : ℚ := 10
deriving Repr

structure WCLoan where
  bank_name : String
  sanctioned_amount : ℚ := 0
  interest_rate : ℚ := 0
deriving Repr

structure CostAsset where
  amount : ℚ := 0
  is_existing_asset : Bool := false
  start_date : Option String := none
  purchase_year : Option Nat := none
  start_year : Option Nat := none
deriving Repr

/-- The value of a row in a year: the data point whose year_setting
matches, with absence treated as 0 (parseFloat of value-or-0). -/
def dpValue (r : Row) (yid : Nat) : ℚ :=
  ((r.data.find? (fun d => d.year_setting == yid)).map DataPoint.value).getD 0

/-- The eligibility test used by the revenue and COGS loops and the cash
flow scans: not hidden, not calculated, not a total row, and the display
name does not start with the equals sign. -/
def rowEligible (r : Row) : Bool :=
  !r.is_hidden && !r.is_calculated && !r.is_total_row && !(jsStartsWith r.name "=")

/-! ## Tax calculator (pure helper) -/

structure TaxOut where
  tax : ℚ
  surcharge : ℚ
  cess : ℚ
  total : ℚ
deriving Repr

/-- Shallow embedding of calculateTax(pbt, regime): all-zero on
non-positive profit, then three regime branches, and an all-zero
fall-through for every other regime string. -/
def calculateTax (pbt : ℚ) (regime : String) : TaxOut :=
  if pbt ≤ 0 then ⟨0, 0, 0, 0⟩
  else if regime = "domestic_22" then
    let tax := pbt * 22 / 100
    let surcharge := tax * 10 / 100
    let cess := (tax + surcharge) * 4 / 100
    ⟨tax, surcharge, cess, tax + surcharge + cess⟩
  else if regime = "llp" then
    let tax := pbt * 30 / 100
    let surcharge := if pbt > 10000000 then tax * 12 / 100 else 0
    let cess := (tax + surcharge) * 4 / 100
    ⟨tax, surcharge, cess, tax + surcharge + cess⟩
  else if regime = "proprietorship" then
    let t1 := if pbt > 300000 then (min pbt 700000 - 300000) * 5 / 100 else 0
    let t2 := if pbt > 700000 then (min pbt 1000000 - 700000) * 10 / 100 else 0
    let t3 := if pbt > 1000000 then (min pbt 1200000 - 1000000) * 15 / 100 else 0
    let t4 := if pbt > 1200000 then (min pbt 1500000 - 1200000) * 20 / 100 else 0
    let t5 := if pbt > 1500000 then (pbt - 1500000) * 30 / 100 else 0
    let slabs := t1 + t2 + t3 + t4 + t5
    let tax := if pbt ≤ 700000 then 0 else slabs
    ⟨tax, 0, 0, tax⟩
  else ⟨0, 0, 0, 0⟩

/-! ## Classification resolver -/

/-- One row step of getVal: exact lowered-name match first, then the
special-case Capital alias; the match returns the data point value. -/
def getValRow (yid : Nat) (keyLower : String) (r : Row) : Option ℚ :=
  let rowLower := jsLower r.name
  if rowLower = keyLower then some (dpValue r yid)
  else if keyLower = "capital" ∧ (rowLower = "ordinary share capital" ∨ rowLower = "share capital") then
    some (dpValue r yid)
  else none

/-- The row loop of getVal (early return at the first match). -/
def getValRows (yid : Nat) (keyLower : String) : List Row → Option ℚ
  | [] => none
  | r :: t =>
    match getValRow yid keyLower r with
    | some v => some v
    | none => getValRows yid keyLower t

/-- The group loop of getVal. -/
def getValGroups (yid : Nat) (keyLower : String) : List Group → Option ℚ
  | [] => none
  | g :: t =>
    match getValRows yid keyLower g.rows with
    | some v => some v
    | none => getValGroups yid keyLower t

/-- Shallow embedding of getVal(yearId, key): a value already present in
the result map wins; otherwise the first row whose lowered name matches
the lowered key (with the Capital alias) supplies the value; 0 when
nothing matches. -/
def getVal (groups : List Group) (m : RMap) (yid : Nat) (key : String) : ℚ :=
  match RMap.find? m key with
  | some v => v
  | none => (getValGroups yid (jsLower key) groups).getD 0

/-- The group matcher of sumGroup: substring match on the lowered name,
or on the system tag against the underscore-normalized fragment. -/
def groupMatches (part : String) (g : Group) : Bool :=
  jsIncludes (jsLower g.name) (jsLower part) ||
  (match g.system_tag with
   | some t => t ≠ "" && jsIncludes (jsLower t) (collapseWs (jsLower part))
   | none => false)

/-- One row of the sumGroup accumulation: hidden rows are skipped, the
exclusion test compares alphanumeric-normalized names, depreciation and
interest rows are always carved out, and calculated, total and
equals-prefixed rows never contribute. -/
def sumGroupRow (yid : Nat) (excludeNames : List String) (acc : ℚ) (r : Row) : ℚ :=
  if r.is_hidden then acc
  else
    let cleanName := normAlnum r.name
    let isExcluded := excludeNames.any (fun ex => jsIncludes cleanName (normAlnum ex)) ||
      jsIncludes cleanName "depreciation" || jsStartsWith cleanName "depr" ||
      jsIncludes cleanName "interest"
    if !isExcluded && !r.is_calculated && !r.is_total_row && !(jsStartsWith r.name "=") then
      acc + dpValue r yid
    else acc

/-- The row sum of one group. -/
def sumGroupRows (rows : List Row) (yid : Nat) (ex : List String) : ℚ :=
  rows.foldl (sumGroupRow yid ex) 0

/-- Shallow embedding of sumGroup(yearId, groupNamePart, excludeNames):
only the FIRST group matching the fragment is summed; 0 when no group
matches. -/
def sumGroup (groups : List Group) (yid : Nat) (part : String) (ex : List String) : ℚ :=
  match groups.find? (groupMatches part) with
  | some g => sumGroupRows g.rows yid ex
  | none => 0

/-- One row of sumAllGroupsByPageType: skips hidden, calculated, total
and equals-prefixed rows and excluded names, and prefers the computed
value from the supplied results object over the raw grid value. -/
def sumAllRow (yid : Nat) (normalizedExcludes : List String) (resultsObj : Option RMap)
    (acc : ℚ) (r : Row) : ℚ :=
  if r.is_hidden || r.is_calculated || r.is_total_row then acc
  else if jsStartsWith r.name "=" then acc
  else
    let cleanName := normAlnum r.name
    if normalizedExcludes.any (fun ex => jsIncludes cleanName ex) then acc
    else
      let val :=
        match resultsObj with
        | some ro => if (RMap.find? ro r.name).isSome then RMap.get ro r.name else dpValue r yid
        | none => dpValue r yid
      acc + val

/-- Shallow embedding of sumAllGroupsByPageType. -/
def sumAllGroupsByPageType (groups : List Group) (yid : Nat) (pageType : String)
    (excludeSystemTags : List String) (excludeRowNames : List String)
    (resultsObj : Option RMap) : ℚ :=
  let normalizedExcludes := excludeRowNames.map normAlnum
  (groups.filter (fun g => g.page_type == pageType &&
      !(match g.system_tag with
        | some t => excludeSystemTags.contains t
        | none => false))).foldl
    (fun acc g => g.rows.foldl (sumAllRow yid normalizedExcludes resultsObj) acc) 0

/-! ## Engine inputs and per-year loan aggregation -/

/-- The static inputs of calculateAll.  The sector argument and the
drawingsData argument of the source signature are never read by the
engine body, so sector is carried as an unused field and drawingsData is
omitted. -/
structure Ctx where
  allGroups : List Group
  yearSettings : List YearSetting
  sector : String := ""
  taxRegime : String := "domestic_22"
  loanSummaries : List LoanSummary := []
  gprSettings : Option GPRSettings := none
  wcSettings : Option WCSettings := none
  projectCostsData : List CostAsset := []
  existingWCLoans : List WCLoan := []

/-- The WC settings after the defaulting destructure of the source
(absent settings object gives requirement type new, zero limits and rate
10). -/
def wcOf (ctx : Ctx) : WCSettings := ctx.wcSettings.getD {}

/-- Per-year accumulated term-loan figures (loanDataByYear entry). -/
structure LoanAgg where
  interest : ℚ := 0
  principal : ℚ := 0
  closingBalance : ℚ := 0
  openingBalance : ℚ := 0

/-- loanDataByYear[yid]: none when no summary mentions the year,
otherwise the accumulated sums. -/
def loanAgg (ls : List LoanSummary) (yid : Nat) : Option LoanAgg :=
  let rel := ls.filter (fun s => s.year_id == yid)
  if rel.isEmpty then none
  else some
    { interest := rel.foldl (fun a s => a + s.annual_interest) 0
      principal := rel.foldl (fun a s => a + s.annual_principal) 0
      closingBalance := rel.foldl (fun a s => a + s.closing_balance) 0
      openingBalance := rel.foldl (fun a s => a + s.opening_balance) 0 }

/-- The display name of a loan summary (empty and missing names fall
back to the new-vs-existing default). -/
def loanNameOf (s : LoanSummary) : String :=
  jsOrStr s.loan_name (if s.is_new_loan then "New Term Loan" else "Term Loan")

/-- Stable insertion of an element into a sorted list (elements compare
by a boolean le). -/
def sInsert (leB : α → α → Bool) (x : α) : List α → List α
  | [] => [x]
  | y :: t => if leB x y then x :: y :: t else y :: sInsert leB x t

/-- Stable sort by a boolean le (model of the ES2019 stable Array
sort). -/
def sSort (leB : α → α → Bool) (l : List α) : List α := l.foldr (sInsert leB) []

/-- The defensive re-sort of the year settings by the first 4-digit
number of the label. -/
def jsSortYears (ys : List YearSetting) : List YearSetting :=
  sSort (fun a b => Nat.ble (getYearNum a.year) (getYearNum b.year)) ys

/-! ## Phase P: operating statement -/

/-- Revenue: sum of the eligible rows of the first group whose lowered
name contains the fragment revenue. -/
def totalRevenueOf (groups : List Group) (yid : Nat) : ℚ :=
  match groups.find? (fun g => jsIncludes (jsLower g.name) "revenue") with
  | some g =>
    g.rows.foldl (fun acc r => if rowEligible r then acc + dpValue r yid else acc) 0
  | none => 0

/-- The accumulator of the COGS categorization loop. -/
structure CogsAcc where
  openStockRM : ℚ := 0
  closeStockRM : ℚ := 0
  purchasesRM : ℚ := 0
  otherRMCosts : ℚ := 0
  manufacturingExpenses : ℚ := 0
  openWIP : ℚ := 0
  closeWIP : ℚ := 0
  openFG : ℚ := 0
  closeFG : ℚ := 0

/-- The name tests of the opening raw-material branch of the COGS
loop. -/
def isOpeningRMName (nm : String) : Bool :=
  jsIncludes nm "opening" && jsIncludes nm "stock" && jsIncludes nm "raw"

/-- The opening raw-material stock used for an opening stock row: the
forced Target-GPR injection has first priority, then for a year after
the first the prior year closing stock with a falsy fallback to the
entered value, and for year 0 the entered value. -/
def cogsOpeningVal (yearIndex : Nat) (prev : Option RMap) (m : RMap) (value : ℚ) : ℚ :=
  if (RMap.find? m "_forced_opening_stock_rm").isSome then
    RMap.get m "_forced_opening_stock_rm"
  else if yearIndex > 0 then
    jsOrOpt (prev.bind (fun p => RMap.find? p "Closing Stock (Raw Materials)")) value
  else value

/-- One row of the COGS categorization: the smart if-else-if chain of
the source, including the forced-opening-stock priority, the waterfall
carry-forward with its falsy fallback to the entered value, and the
write of the opening stock under both the row name and the canonical
label. -/
def cogsStep (yearIndex : Nat) (prev : Option RMap) (yid : Nat)
    (st : CogsAcc × RMap) (r : Row) : CogsAcc × RMap :=
  let acc := st.1
  let m := st.2
  if !(rowEligible r) then (acc, m)
  else
    let value := dpValue r yid
    let nm := jsLower r.name
    if isOpeningRMName nm then
      let o := cogsOpeningVal yearIndex prev m value
      ({ acc with openStockRM := o },
        (m.set r.name o).set "Opening Stock (Raw Materials)" o)
    else if jsIncludes nm "closing" && jsIncludes nm "stock" && jsIncludes nm "raw" then
      ({ acc with closeStockRM := value }, m)
    else if jsIncludes nm "purchase" && jsIncludes nm "raw" then
      ({ acc with purchasesRM := acc.purchasesRM + value }, m)
    else if jsIncludes nm "freight" && jsIncludes nm "in" then
      ({ acc with otherRMCosts := acc.otherRMCosts + value }, m)
    else if jsIncludes nm "opening" && jsIncludes nm "work" && jsIncludes nm "process" then
      ({ acc with openWIP :=
          if yearIndex == 0 then value
          else jsOrOpt (prev.bind (fun p => RMap.find? p "Closing Stock (Work-in-Process)")) value }, m)
    else if jsIncludes nm "closing" && jsIncludes nm "work" && jsIncludes nm "process" then
      ({ acc with closeWIP := value }, m)
    else if jsIncludes nm "opening" && jsIncludes nm "finished" then
      ({ acc with openFG :=
          if yearIndex == 0 then value
          else jsOrOpt (prev.bind (fun p => RMap.find? p "Closing Stock (Finished Goods)")) value }, m)
    else if jsIncludes nm "closing" && jsIncludes nm "finished" then
      ({ acc with closeFG := value }, m)
    else ({ acc with manufacturingExpenses := acc.manufacturingExpenses + value }, m)

/-- The COGS categorization loop over the rows of the COGS group. -/
def cogsScan (rows : List Row) (yearIndex : Nat) (prev : Option RMap) (yid : Nat)
    (m : RMap) : CogsAcc × RMap :=
  rows.foldl (cogsStep yearIndex prev yid) ({}, m)

/-- The rows of the first group matching cost of goods sold or cogs. -/
def cogsRowsOf (groups : List Group) : List Row :=
  match groups.find? (fun g =>
      jsIncludes (jsLower g.name) "cost of goods sold" || jsIncludes (jsLower g.name) "cogs") with
  | some g => g.rows
  | none => []

/-- The Target-GPR block: year 0 stores the achieved margin; a later
year with positive revenue receives a target margin (prior stored margin
plus the configured increment), solves the closing raw-material stock
from the target COGS, stores it, and returns the injection of the forced
opening stock for the next year in input order. -/
def gprAdjust (gpr : Option GPRSettings) (yearSettings : List YearSetting)
    (yearIndex : Nat) (totalRevenue : ℚ) (prev : Option RMap)
    (st : CogsAcc × RMap) : CogsAcc × RMap × Option (Nat × ℚ) :=
  let acc := st.1
  let m := st.2
  match gpr with
  | none => (acc, m, none)
  | some g =>
    if g.enabled ∧ totalRevenue > 0 then
      if yearIndex == 0 then
        let actualRMConsumed := acc.openStockRM + acc.purchasesRM + acc.otherRMCosts - acc.closeStockRM
        let actualGrossFactoryCost := actualRMConsumed + acc.manufacturingExpenses
        let actualFactoryCostProduced := actualGrossFactoryCost + acc.openWIP - acc.closeWIP
        let actualCOGS := actualFactoryCostProduced + acc.openFG - acc.closeFG
        let actualGrossProfit := totalRevenue - actualCOGS
        let actualGPR := actualGrossProfit / totalRevenue * 100
        (acc, m.set "_actual_gpr" actualGPR, none)
      else
        let prevGPR := jsOrOpt (prev.bind (fun p => RMap.find? p "_actual_gpr")) 0
        let targetGPR :=
          if yearIndex == 1 then prevGPR + g.firstYearIncrement
          else prevGPR + g.subsequentIncrement
        let m := m.set "_actual_gpr" targetGPR
        let targetGrossProfit := totalRevenue * (targetGPR / 100)
        let targetCOGS := totalRevenue - targetGrossProfit
        let fixedPart := (acc.openStockRM + acc.purchasesRM + acc.otherRMCosts) +
          acc.manufacturingExpenses + (acc.openWIP - acc.closeWIP) + (acc.openFG - acc.closeFG)
        let close := fixedPart - targetCOGS
        let m := m.set "Closing Stock (Raw Materials)" close
        let m := if jsTruthyOpt (RMap.find? m "Closing Stock") then m.set "Closing Stock" close else m
        let inj :=
          if yearIndex + 1 < yearSettings.length then
            (yearSettings.get? (yearIndex + 1)).map (fun y => (y.id, close))
          else none
        ({ acc with closeStockRM := close }, m, inj)
    else (acc, m, none)

/-- One step of the itemized WC interest loop: accumulate the simple
annual interest of the loan and write it under the bank label. -/
def wcInterestStep (st : ℚ × RMap) (loan : WCLoan) : ℚ × RMap :=
  let interestAmt := loan.sanctioned_amount * loan.interest_rate / 100
  (st.1 + interestAmt,
    st.2.set ("Interest on " ++ loan.bank_name ++ " WC") interestAmt)

/-- The auto-calculated working capital interest: itemized existing WC
loans (each written under its bank label) or the single
existing-limit-times-rate product in enhancement mode, plus the proposed
product. -/
def wcInterestCalc (wc : WCSettings) (exLoans : List WCLoan) (m : RMap) : ℚ × ℚ × RMap :=
  let exm :=
    if exLoans.length > 0 then
      exLoans.foldl wcInterestStep (0, m)
    else if wc.wc_requirement_type = "enhancement" then
      (wc.existing_wc_limit * wc.existing_wc_interest_rate / 100,
        m.set "Interest on Existing Working Capital"
          (wc.existing_wc_limit * wc.existing_wc_interest_rate / 100))
    else (0, m)
  let proposed := wc.proposed_wc_limit * wc.proposed_wc_interest_rate / 100
  (exm.1, proposed, exm.2.set "Interest on Proposed Working Capital" proposed)

/-- The per-loan interest rows injected into the results. -/
def loanInterestWrites (ls : List LoanSummary) (yid : Nat) (m : RMap) : RMap :=
  ls.foldl (fun m s =>
    if s.year_id == yid then
      m.set ("Interest on " ++ loanNameOf s) s.annual_interest
    else m) m

/-- The robust interest scan over every group row: any interest-named
row except totals, the separately handled term-loan and working-capital
categories, injected interest-on rows and the coverage ratio. -/
def otherInterestSum (groups : List Group) (yid : Nat) : ℚ :=
  groups.foldl (fun acc g =>
    g.rows.foldl (fun acc r =>
      let nm := jsLower r.name
      if jsIncludes nm "interest" && !jsIncludes nm "total interest" &&
          !jsIncludes nm "term loan interest" && !jsIncludes nm "working capital interest" &&
          !(jsStartsWith nm "interest on") && !jsIncludes nm "interest coverage" then
        acc + dpValue r yid
      else acc) acc) 0

/-- The scalar outputs of the operating statement phase (the local
variables of the source that later phases read). -/
structure PLRes where
  totalRevenue : ℚ := 0
  openStockRM : ℚ := 0
  closeStockRM : ℚ := 0
  purchasesRM : ℚ := 0
  otherRMCosts : ℚ := 0
  manufacturingExpenses : ℚ := 0
  openWIP : ℚ := 0
  closeWIP : ℚ := 0
  openFG : ℚ := 0
  closeFG : ℚ := 0
  rmConsumed : ℚ := 0
  grossFactoryCost : ℚ := 0
  factoryCostProduced : ℚ := 0
  cogs : ℚ := 0
  grossProfit : ℚ := 0
  grossProfitRat : ℚ := 0
  wcInterestExisting : ℚ := 0
  wcInterestProposed : ℚ := 0
  totalSGA : ℚ := 0
  ebitda : ℚ := 0
  termLoanInterest : ℚ := 0
  otherInterest : ℚ := 0
  totalInterest : ℚ := 0
  depreciation : ℚ := 0
  opProfit : ℚ := 0
  pbt : ℚ := 0
  taxD : TaxOut := ⟨0, 0, 0, 0⟩
  pat : ℚ := 0
  dividends : ℚ := 0
  divTax : ℚ := 0
  retainedProfit : ℚ := 0
  inject : Option (Nat × ℚ) := none

/-- Phase P: the operating statement of one year, translated
line-by-line from the source (revenue, COGS categorization, Target-GPR
block, derived chain, working-capital interest, SGA, EBITDA, interest
aggregation, depreciation, EBIT, PBT, tax, PAT, retained profit),
threading the result map through every write. -/
def phaseP (ctx : Ctx) (yearIndex : Nat) (prev : Option RMap) (yid : Nat)
    (m0 : RMap) : RMap × PLRes :=
  let groups := ctx.allGroups
  -- A. revenue
  let totalRevenue := totalRevenueOf groups yid
  let m := (m0.set "Total Revenue" totalRevenue).set "Total Sales" totalRevenue
  -- B. COGS categorization
  let st := cogsScan (cogsRowsOf groups) yearIndex prev yid m
  -- Target-GPR logic
  let gout := gprAdjust ctx.gprSettings ctx.yearSettings yearIndex totalRevenue prev st
  let acc := gout.1
  let m := gout.2.1
  let inject := gout.2.2
  -- derived chain
  let rmConsumed := acc.openStockRM + acc.purchasesRM + acc.otherRMCosts - acc.closeStockRM
  let m := m.set "Raw Material Consumed" rmConsumed
  let grossFactoryCost := rmConsumed + acc.manufacturingExpenses
  let m := m.set "Total Manufacturing Expenses" acc.manufacturingExpenses
  let m := m.set "Gross Factory Cost" grossFactoryCost
  let factoryCostProduced := grossFactoryCost + acc.openWIP - acc.closeWIP
  let m := m.set "Factory Cost of Goods Produced" factoryCostProduced
  let cogs := factoryCostProduced + acc.openFG - acc.closeFG
  let m := m.set "Cost of Goods Sold (COGS)" cogs
  let grossProfit := totalRevenue - cogs
  let m := m.set "Gross Profit" grossProfit
  let grossProfitRat := if totalRevenue ≠ 0 then grossProfit / totalRevenue * 100 else 0
  let m := m.set "Gross Profit Ratio" grossProfitRat
  -- working capital interest
  let wcout := wcInterestCalc (wcOf ctx) ctx.existingWCLoans m
  let wcInterestExisting := wcout.1
  let wcInterestProposed := wcout.2.1
  let m := wcout.2.2
  -- G. SGA
  let totalSGA := sumGroup groups yid "Selling"
    ["Depreciation", "Interest", "Depriciation", "Equipment", "Depr", "Amortization"]
  let m := m.set "Total SG&A Expenses" totalSGA
  let m := m.set "Total Selling, General & Administrative Expenses" totalSGA
  let m := m.set "Selling, General, and Admn. Exp. Total" totalSGA
  -- H. EBITDA
  let ebitda := grossProfit - totalSGA
  let m := m.set "EBITDA" ebitda
  let m := m.set "Profit before Depreciation, Interest and Tax" ebitda
  -- I. interest
  let termLoanInterest := jsOrOpt ((loanAgg ctx.loanSummaries yid).map LoanAgg.interest) 0
  let m := loanInterestWrites ctx.loanSummaries yid m
  let otherInterest := otherInterestSum groups yid
  let totalInterest := termLoanInterest + otherInterest + wcInterestExisting + wcInterestProposed
  let m := m.set "Term Loan Interest" termLoanInterest
  let m := m.set "Working Capital Interest" 0
  let m := m.set "Other Interest" otherInterest
  let m := m.set "Total Interest" totalInterest
  -- J. depreciation
  let depreciation := jsOrQ (getVal groups m yid "Depreciation")
    (getVal groups m yid "Depreciation (Office Equipment)")
  let m := m.set "Depreciation" depreciation
  let m := m.set "Depreciation (Office Equipment)" depreciation
  -- K. EBIT
  let opProfit := ebitda - depreciation
  let m := m.set "Operating Profit (EBIT)" opProfit
  let m := m.set "Profit After Depreciation" opProfit
  let m := m.set "EBIT" opProfit
  -- L. PBT
  let pbt := ebitda - totalInterest - depreciation
  let m := m.set "Profit Before Tax" pbt
  let m := m.set "Profit/loss before tax" pbt
  -- L. tax
  let taxD := calculateTax pbt ctx.taxRegime
  let m := m.set "Tax" taxD.tax
  let m := m.set "Surcharge" taxD.surcharge
  let m := m.set "Cess" taxD.cess
  let m := m.set "Total Tax" taxD.total
  let m := m.set "Provision for Taxes" taxD.total
  -- M. PAT
  let pat := pbt - taxD.total
  let m := m.set "Profit After Tax (PAT)" pat
  let m := m.set "PAT" pat
  -- N. retained profit
  let dividends := getVal groups m yid "Equity / Dividend Paid Amount"
  let divTax := getVal groups m yid "Dividend Tax including Surcharge"
  let retainedProfit := pat - (dividends + divTax)
  let m := m.set "Retained Profit" retainedProfit
  (m,
    { totalRevenue := totalRevenue
      openStockRM := acc.openStockRM
      closeStockRM := acc.closeStockRM
      purchasesRM := acc.purchasesRM
      otherRMCosts := acc.otherRMCosts
      manufacturingExpenses := acc.manufacturingExpenses
      openWIP := acc.openWIP
      closeWIP := acc.closeWIP
      openFG := acc.openFG
      closeFG := acc.closeFG
      rmConsumed := rmConsumed
      grossFactoryCost := grossFactoryCost
      factoryCostProduced := factoryCostProduced
      cogs := cogs
      grossProfit := grossProfit
      grossProfitRat := grossProfitRat
      wcInterestExisting := wcInterestExisting
      wcInterestProposed := wcInterestProposed
      totalSGA := totalSGA
      ebitda := ebitda
      termLoanInterest := termLoanInterest
      otherInterest := otherInterest
      totalInterest := totalInterest
      depreciation := depreciation
      opProfit := opProfit
      pbt := pbt
      taxD := taxD
      pat := pat
      dividends := dividends
      divTax := divTax
      retainedProfit := retainedProfit
      inject := inject })

/-! ## Phase B: balance sheet -/

/-- New-asset additions dated into the year: skip existing assets, then
match by exact start date against the year label, by purchase-year id,
or by start year against the first 4-digit number before the dash of the
label. -/
def assetAdditionsOf (costs : List CostAsset) (label : Option String) (yid : Nat) : ℚ :=
  if costs.length > 0 then
    (costs.filter (fun a =>
      if a.is_existing_asset then false
      else if (match a.start_date, label with
               | some sd, some l => sd ≠ "" && sd = l
               | _, _ => false) then true
      else if (match a.purchase_year with
               | some p => p ≠ 0 && p == yid
               | none => false) then true
      else
        match a.start_year, label with
        | some sy, some l =>
          sy ≠ 0 && l ≠ "" &&
            (match jsParseInt (beforeDash l) with
             | some f => sy == f
             | none => false)
        | _, _ => false)).foldl (fun acc a => acc + a.amount) 0
  else 0

/-- One row of the robust assignment loop over the fixed-asset group:
a row whose trimmed lowered name contains gross block receives the
gross block, the row named exactly net block receives the net block. -/
def fixedRowStep (grossBlock netBlock : ℚ) (m : RMap) (r : Row) : RMap :=
  let lowerName := jsTrim (jsLower r.name)
  if jsIncludes lowerName "gross block" then m.set r.name grossBlock
  else if lowerName = "net block" then m.set r.name netBlock
  else m

/-- The robust assignment loop over the rows of the first fixed-asset
group. -/
def fixedAssetLoopWrites (groups : List Group) (grossBlock netBlock : ℚ) (m : RMap) : RMap :=
  match groups.find? (fun g =>
      jsIncludes (jsLower g.name) "fixed" || g.system_tag == some "fixed_assets") with
  | some g => g.rows.foldl (fixedRowStep grossBlock netBlock) m
  | none => m

/-- One step of the WC liability injection: accumulate the sanctioned
amount and write it under the bank label. -/
def wcLimitStep (st : ℚ × RMap) (loan : WCLoan) : ℚ × RMap :=
  (st.1 + loan.sanctioned_amount,
    st.2.set (loan.bank_name ++ " WC Limit") loan.sanctioned_amount)

/-- The per-loan closing balance rows injected into the results. -/
def loanClosingWrites (ls : List LoanSummary) (yid : Nat) (m : RMap) : RMap :=
  ls.foldl (fun m s =>
    if s.year_id == yid then
      m.set (loanNameOf s ++ " (Closing Balance)") s.closing_balance
    else m) m

/-- The scalar outputs of the balance sheet phase. -/
structure BSRes where
  nonCashCurrentAssets : ℚ := 0
  gridRM : ℚ := 0
  gridWIP : ℚ := 0
  gridFG : ℚ := 0
  assetAdditions : ℚ := 0
  grossBlock : ℚ := 0
  netBlock : ℚ := 0
  capitalWIP : ℚ := 0
  intangibleAssets : ℚ := 0
  totalFixedAssets : ℚ := 0
  totalCurrentLiabilitiesInput : ℚ := 0
  wcLiabilityExisting : ℚ := 0
  wcLiabilityProposed : ℚ := 0
  totalCurrentLiabilities : ℚ := 0
  termLiabilitiesInput : ℚ := 0
  loanOutstanding : ℚ := 0
  totalTermLiabilities : ℚ := 0
  isLlp : Bool := false
  shareCapitalOuter : ℚ := 0
  capital : ℚ := 0
  yearDrawings : ℚ := 0
  totalNetWorth : ℚ := 0
  allLiabilityRowsSum : ℚ := 0
  totalLiabilities : ℚ := 0

/-- Phase B: the balance sheet of one year, translated line-by-line
(current assets with the inventory re-sync, the written-down-value fixed
asset cascade with the dedicated net-block carry key, current and term
liabilities with the injected tax, working-capital and loan balances,
the dual net worth computation, and the wide liability sum). -/
def phaseB (ctx : Ctx) (yearIndex : Nat) (prev : Option RMap) (yid : Nat)
    (m0 : RMap) (p : PLRes) : RMap × BSRes :=
  let groups := ctx.allGroups
  -- A. current assets
  let nonCashCA0 := sumGroup groups yid "Current assets" ["Cash", "Bank"]
  let gridRM := getVal groups m0 yid "Raw materials Domestic"
  let m := m0.set "Raw materials Domestic" p.closeStockRM
  let m := m.set "Closing Stock (Raw Materials)" p.closeStockRM
  let gridWIP := getVal groups m yid "Stock in process"
  let m := m.set "Stock in process" p.closeWIP
  let m := m.set "Closing Stock (Work-in-Process)" p.closeWIP
  let gridFG := getVal groups m yid "Finished goods"
  let m := m.set "Finished goods" p.closeFG
  let m := m.set "Closing Stock (Finished Goods)" p.closeFG
  let nonCashCurrentAssets := nonCashCA0 - gridRM - gridWIP - gridFG +
    p.closeStockRM + p.closeWIP + p.closeFG
  -- B. fixed assets (WDV cascade)
  let assetAdditions := assetAdditionsOf ctx.projectCostsData
    ((ctx.yearSettings.get? yearIndex).map YearSetting.year) yid
  let grossBlock :=
    if yearIndex == 0 then getVal groups m yid "Gross block" + assetAdditions
    else
      let prevNetBlock :=
        match prev with
        | none => 0
        | some pm =>
          match RMap.find? pm "_net_block_carry" with
          | some v => v
          | none => jsOrOpt (RMap.find? pm "Net block") (jsOrOpt (RMap.find? pm "Net Block") 0)
      prevNetBlock + assetAdditions
  let netBlock := grossBlock - p.depreciation
  let m := m.set "Gross block" grossBlock
  let m := m.set "Net block" netBlock
  let m := m.set "_net_block_carry" netBlock
  let m := fixedAssetLoopWrites groups grossBlock netBlock m
  let m := m.set "Asset Additions" assetAdditions
  let capitalWIP := jsOrQ (getVal groups m yid "Capital WIP") (getVal groups m yid "Capital WIP")
  let intangibleAssets := jsOrQ (getVal groups m yid "Intangible Assets") 0
  let totalFixedAssets := netBlock + capitalWIP + intangibleAssets
  let m := m.set "Total Fixed Assets" totalFixedAssets
  -- C. current liabilities
  let totalCurrentLiabilitiesInput := sumGroup groups yid "Current liabilities" ["Provision for Taxes"]
  let wcl :=
    if ctx.existingWCLoans.length > 0 then
      ctx.existingWCLoans.foldl wcLimitStep (0, m)
    else if (wcOf ctx).wc_requirement_type = "enhancement" then
      ((wcOf ctx).existing_wc_limit,
        m.set "Existing Working Capital Limit" (wcOf ctx).existing_wc_limit)
    else (0, m)
  let wcLiabilityExisting := wcl.1
  let m := wcl.2
  let wcLiabilityProposed := (wcOf ctx).proposed_wc_limit
  let m := m.set "Proposed Working Capital Limit" wcLiabilityProposed
  let totalCurrentLiabilities := totalCurrentLiabilitiesInput + p.taxD.total +
    wcLiabilityExisting + wcLiabilityProposed
  let m := m.set "Total current liability" totalCurrentLiabilities
  let m := m.set "Total Current Liabilities" totalCurrentLiabilities
  let m := m.set "Provision for Taxes" p.taxD.total
  -- D. term liabilities
  let termLiabilitiesInput := sumGroup groups yid "Term liabilities" ["Term loans"]
  let loanOutstanding := jsOrOpt ((loanAgg ctx.loanSummaries yid).map LoanAgg.closingBalance) 0
  let m := loanClosingWrites ctx.loanSummaries yid m
  let totalTermLiabilities := termLiabilitiesInput + loanOutstanding
  let m := m.set "Total term liabilities" totalTermLiabilities
  let m := m.set "Total Term Liabilities" totalTermLiabilities
  let m := m.set "Term loans (excluding installments)" loanOutstanding
  -- E. net worth (two branches)
  let isLlp := ctx.taxRegime == "llp" || ctx.taxRegime == "proprietorship"
  let nw :=
    if isLlp then
      let capital :=
        if yearIndex == 0 then
          jsOrQ (getVal groups m yid "Capital") (jsOrQ (getVal groups m yid "Ordinary share capital") 0)
        else
          let prevCapital := match prev with | some pm => RMap.get pm "Capital" | none => 0
          let prevPAT :=
            jsOrOpt (prev.bind (fun pm => RMap.find? pm "General Reserve (PAT)"))
              (jsOrOpt (prev.bind (fun pm => RMap.find? pm "Profit After Tax (PAT)")) 0)
          let prevDrawings := match prev with | some pm => RMap.get pm "Drawings" | none => 0
          prevCapital + prevPAT - prevDrawings
      let m := m.set "Capital" capital
      let yearDrawings := jsOrQ (getVal groups m yid "Drawings") 0
      let m := m.set "Drawings" yearDrawings
      let generalReservePAT := RMap.get m "Profit After Tax (PAT)"
      let m := m.set "General Reserve (PAT)" generalReservePAT
      let otherHeads := sumGroup groups yid "Net Worth"
        ["Capital", "Drawings", "General reserve", "Total Net Worth",
          "Ordinary share capital", "Share Capital", "Reserves & Surplus"]
      (m, capital - yearDrawings + generalReservePAT + otherHeads, capital, capital, yearDrawings)
    else
      let shareCapital0 := sumGroup groups yid "Shareholders" ["General reserve", "Net worth", "liability"]
      let shareCapital1 :=
        if shareCapital0 = 0 then sumGroup groups yid "Share capital" ["General reserve", "Net worth", "liability"]
        else shareCapital0
      let shareCapital :=
        if shareCapital1 = 0 then sumGroup groups yid "Net Worth" ["General reserve", "Net worth", "liability"]
        else shareCapital1
      let generalReserveInput := getVal groups m yid "General reserve"
      let currentReserves :=
        if yearIndex == 0 then generalReserveInput + p.retainedProfit
        else (match prev with | some pm => RMap.get pm "Reserves" | none => 0) + p.retainedProfit
      let m := m.set "Reserves" currentReserves
      let m := m.set "General reserve" currentReserves
      let m := m.set "Retained Earnings" currentReserves
      (m, shareCapital + currentReserves, 0, 0, 0)
  let m := nw.1
  let totalNetWorth := nw.2.1
  let shareCapitalOuter := nw.2.2.1
  let capital := nw.2.2.2.1
  let yearDrawings := nw.2.2.2.2
  let m := m.set "Net worth" totalNetWorth
  let m := m.set "Net Worth" totalNetWorth
  let m := m.set "Total Net Worth" totalNetWorth
  -- F. total liabilities (wide sum plus the injected components)
  let allLiabilityRowsSum := sumAllGroupsByPageType groups yid "liability"
    ["total_liabilities", "total_assets", "net_worth", "net_worth_total",
      "reserves_surplus", "shareholders_equity"]
    ["provision for taxes", "term loans", "term loan", "existing working capital",
      "proposed working capital", "share capital", "ordinary share capital",
      "general reserve", "capital", "drawings", "retained earnings",
      "reserves & surplus", "capital reserve", "share premium"]
    (some m)
  let totalLiabilities := allLiabilityRowsSum + p.taxD.total + loanOutstanding +
    wcLiabilityExisting + wcLiabilityProposed + totalNetWorth
  let m := m.set "Total liabilities" totalLiabilities
  let m := m.set "Total Liabilities" totalLiabilities
  let m := m.set "Total Liabilities and Net Worth" totalLiabilities
  let m := m.set "_debug_allLiabilityRowsSum" allLiabilityRowsSum
  let m := m.set "_debug_taxInjection" p.taxD.total
  let m := m.set "_debug_loanInjection" loanOutstanding
  let m := m.set "_debug_wcInjection" (wcLiabilityExisting + wcLiabilityProposed)
  let m := m.set "_debug_netWorthInjection" totalNetWorth
  (m,
    { nonCashCurrentAssets := nonCashCurrentAssets
      gridRM := gridRM
      gridWIP := gridWIP
      gridFG := gridFG
      assetAdditions := assetAdditions
      grossBlock := grossBlock
      netBlock := netBlock
      capitalWIP := capitalWIP
      intangibleAssets := intangibleAssets
      totalFixedAssets := totalFixedAssets
      totalCurrentLiabilitiesInput := totalCurrentLiabilitiesInput
      wcLiabilityExisting := wcLiabilityExisting
      wcLiabilityProposed := wcLiabilityProposed
      totalCurrentLiabilities := totalCurrentLiabilities
      termLiabilitiesInput := termLiabilitiesInput
      loanOutstanding := loanOutstanding
      totalTermLiabilities := totalTermLiabilities
      isLlp := isLlp
      shareCapitalOuter := shareCapitalOuter
      capital := capital
      yearDrawings := yearDrawings
      totalNetWorth := totalNetWorth
      allLiabilityRowsSum := allLiabilityRowsSum
      totalLiabilities := totalLiabilities })

/-! ## Phase C: cash flow statement (indirect method) -/

/-- An apostrophe character (kept out of the literals). -/
def aposS : String := String.singleton (Char.ofNat 39)

/-- The partner capital row label. -/
def partnersCapital : String := "partner" ++ aposS ++ "s capital"

/-- The prefix of the per-row delta display keys, as the bytes appear in
the source. -/
def deltaKey (name : String) : String := "Î” " ++ name

/-- The priority-ordered per-row cash-flow bucket: cash rows, reserve
rows, the partnership capital and drawings rows, and interest rows skip;
recognized system tags map to fixed buckets; everything else falls back
to the owning group bucket. -/
def getRowCFBucket (isLlp : Bool) (groupCfBucket : String) (r : Row) : String :=
  let lowerName := jsLower r.name
  if r.system_tag == some "cash_bank" ||
      (jsIncludes lowerName "cash" && (jsIncludes lowerName "bank" || jsIncludes lowerName "hand")) then "skip"
  else if r.system_tag == some "retained_earnings" || r.system_tag == some "general_reserve" then "skip"
  else if isLlp &&
      (lowerName == "capital" || r.system_tag == some "capital" || lowerName == partnersCapital) then "skip"
  else if isLlp && (lowerName == "drawings" || r.system_tag == some "drawings") then "skip"
  else if isLlp && jsIncludes lowerName "general reserve" then "skip"
  else if jsIncludes lowerName "interest" && !jsIncludes lowerName "interest coverage" then "skip"
  else
    match r.system_tag with
    | some tag =>
      if tag ≠ "" then
        if ["wc_borrowing", "drawings", "share_capital", "unsecured_loan", "term_loan"].contains tag then "financing"
        else if ["gross_block", "capital_wip", "net_block", "accum_depr"].contains tag then
          if tag == "gross_block" || tag == "net_block" || tag == "accum_depr" then "skip"
          else "investing"
        else if tag == "dtl" then
          if jsIncludes lowerName "cc limit" || jsIncludes lowerName "od limit" ||
              jsIncludes lowerName "packing credit" ||
              jsIncludes lowerName "short term borrowing" ||
              jsIncludes lowerName "unsecured loan" ||
              jsIncludes lowerName partnersCapital ||
              jsIncludes lowerName "share capital" || jsIncludes lowerName "ordinary share capital" ||
              jsIncludes lowerName "bills payable" ||
              (jsIncludes lowerName "current maturity" && jsIncludes lowerName "debt") then "financing"
          else if jsIncludes lowerName "gross block" || jsIncludes lowerName "net block" then "skip"
          else "investing"
        else groupCfBucket
      else groupCfBucket
    | none => groupCfBucket

/-- The group-level cash-flow bucket (configured bucket, with a tag
keyword fallback). -/
def groupBucketOf (g : Group) : String :=
  jsOrStr g.cf_bucket
    (if (match g.system_tag with
         | some t => jsIncludes t "current" || jsIncludes t "trade" || jsIncludes t "provision"
         | none => false) then "operating"
     else if (match g.system_tag with
              | some t => jsIncludes t "fixed" || jsIncludes t "non_current"
              | none => false) then "investing"
     else if (match g.system_tag with
              | some t => jsIncludes t "capital" || jsIncludes t "borrowing" || jsIncludes t "term"
              | none => false) then "financing"
     else "operating")

/-- The accumulated state of the per-row delta scan. -/
structure ScanOut where
  operatingDeltas : List (String × ℚ) := []
  investingDeltas : List (String × ℚ) := []
  financingDeltas : List (String × ℚ) := []
  m : RMap := []

/-- The current value of a scanned row: raw grid value, re-synced from
the computed results for provision-for-tax rows and for the three
inventory row names. -/
def scanCurrVal (taxTotal : ℚ) (m : RMap) (yid : Nat) (r : Row) : ℚ :=
  let rnl := jsLower r.name
  let currVal := dpValue r yid
  let currVal :=
    if jsIncludes rnl "provision for tax" then
      jsOrOpt (RMap.find? m "Provision for Taxes") (jsOrQ taxTotal currVal)
    else currVal
  let currVal :=
    if jsIncludes rnl "raw material" && jsIncludes rnl "domestic" then
      jsOrOpt (RMap.find? m "Raw materials Domestic")
        (jsOrOpt (RMap.find? m "Closing Stock (Raw Materials)") currVal)
    else currVal
  let currVal :=
    if jsIncludes rnl "stock in process" || (jsIncludes rnl "wip" && !jsIncludes rnl "capital") then
      jsOrOpt (RMap.find? m "Stock in process")
        (jsOrOpt (RMap.find? m "Closing Stock (Work-in-Process)") currVal)
    else currVal
  if jsIncludes rnl "finished good" then
    jsOrOpt (RMap.find? m "Finished goods")
      (jsOrOpt (RMap.find? m "Closing Stock (Finished Goods)") currVal)
  else currVal

/-- One row of the delta scan: classify, re-sync provision and
inventory values from the results, compute the nature-signed delta of
this year versus last year, store the current value under the row name,
and record non-trivial deltas in the matching bucket. -/
def scanStep (isLlp : Bool) (taxTotal : ℚ) (prev : Option RMap) (yid : Nat)
    (nature groupCfBucket : String) (st : ScanOut) (r : Row) : ScanOut :=
  if !(rowEligible r) then st
  else
    let cfBucket := getRowCFBucket isLlp groupCfBucket r
    if cfBucket == "skip" then st
    else
      let rnl := jsLower r.name
      if jsIncludes rnl "term loan" && jsIncludes rnl "excluding" then st
      else
        let currVal := scanCurrVal taxTotal st.m yid r
        let prevVal := match prev with | some pm => RMap.get pm r.name | none => 0
        let m := st.m.set r.name currVal
        let delta := if nature = "asset" then prevVal - currVal else currVal - prevVal
        if |delta| > 1 / 100 then
          let m := m.set (deltaKey r.name) delta
          if cfBucket == "operating" then
            { st with operatingDeltas := st.operatingDeltas ++ [(r.name, delta)], m := m }
          else if cfBucket == "investing" then
            { st with investingDeltas := st.investingDeltas ++ [(r.name, delta)], m := m }
          else if cfBucket == "financing" then
            { st with financingDeltas := st.financingDeltas ++ [(r.name, delta)], m := m }
          else { st with m := m }
        else { st with m := m }

/-- The delta scan over every balance sheet group (operating groups,
total groups, the net worth subtotal, the reserves group and
cash-equivalent or skip buckets excluded). -/
def scanGroupStep (isLlp : Bool) (taxTotal : ℚ) (prev : Option RMap) (yid : Nat)
    (st : ScanOut) (g : Group) : ScanOut :=
  if g.page_type == "operating" then st
  else if g.system_tag == some "total_assets" || g.system_tag == some "total_liabilities" then st
  else if g.system_tag == some "net_worth_total" then st
  else if g.system_tag == some "reserves_surplus" then st
  else if g.cf_bucket == some "cash_equivalent" || g.cf_bucket == some "skip" then st
  else
    let groupCfBucket := groupBucketOf g
    let nature := jsOrStr g.nature (if g.page_type == "asset" then "asset" else "liability")
    g.rows.foldl (scanStep isLlp taxTotal prev yid nature groupCfBucket) st

def scanGroups (groups : List Group) (isLlp : Bool) (taxTotal : ℚ) (prev : Option RMap)
    (yid : Nat) (m : RMap) : ScanOut :=
  groups.foldl (scanGroupStep isLlp taxTotal prev yid) { m := m }

/-- The numeric part of the global delta audit: the sum of every
non-trivial raw balance-sheet delta cash impact, and the part of it not
captured by any bucket of the scan. -/
def auditCalc (groups : List Group) (capturedNames : List String) (prev : Option RMap)
    (yid : Nat) : ℚ × ℚ :=
  groups.foldl (fun st g =>
    if g.page_type == "operating" then st
    else
      let nature := if g.page_type == "asset" then "asset" else "liability"
      g.rows.foldl (fun (st : ℚ × ℚ) r =>
        if !(rowEligible r) then st
        else
          let currVal := dpValue r yid
          let prevVal := match prev with | some pm => RMap.get pm r.name | none => 0
          let delta := currVal - prevVal
          let cashImpact := if nature = "asset" then -delta else delta
          if |delta| > 1 / 100 then
            (st.1 + cashImpact, if capturedNames.contains r.name then st.2 else st.2 + cashImpact)
          else st) st) (0, 0)

/-- The scalar outputs of the cash flow phase, including every ratio
value (the debt-equity value is computed but not written by the source,
so it appears only here). -/
structure CFRes where
  cashFromOperating : ℚ := 0
  wcAssetChange : ℚ := 0
  wcLiabilityChange : ℚ := 0
  totalBSDelta : ℚ := 0
  uncapturedDelta : ℚ := 0
  purchaseFA : ℚ := 0
  investingDeltaSum : ℚ := 0
  cashFromInvesting : ℚ := 0
  termLoanProceeds : ℚ := 0
  termLoanRepayment : ℚ := 0
  otherTermLiabChange : ℚ := 0
  equityChange : ℚ := 0
  wcBorrowingChange : ℚ := 0
  drawingsOutflow : ℚ := 0
  dividendPaid : ℚ := 0
  totalInterestPaid : ℚ := 0
  financingDeltaSum : ℚ := 0
  cashFromFinancing : ℚ := 0
  netCashFlow : ℚ := 0
  openingCash : ℚ := 0
  closingCashCFS : ℚ := 0
  totalCurrentAssets : ℚ := 0
  nonCurrentAssets : ℚ := 0
  totalAssets : ℚ := 0
  balanceSheetCheck : ℚ := 0
  bsCashChange : ℚ := 0
  cfsReconciliationDiff : ℚ := 0
  totalDebt : ℚ := 0
  debtEquity : ℚ := 0
  currentRat : ℚ := 0
  inventory : ℚ := 0
  quickAssets : ℚ := 0
  quickRat : ℚ := 0
  fixedAssetsCoverage : ℚ := 0
  interestCoverage : ℚ := 0
  termLoanPrincipal : ℚ := 0
  dscr : ℚ := 0
  capitalEmployed : ℚ := 0
  roce : ℚ := 0
  netProfitMargin : ℚ := 0
  returnOnNetWorth : ℚ := 0
  avgInventory : ℚ := 0
  inventoryTurnover : ℚ := 0
  fixedAssetTurnover : ℚ := 0
  assetTurnover : ℚ := 0

/-- Phase C: the cash flow statement of one year (operating section
with add-backs and the metadata delta scan, the numeric global audit,
investing and financing sections, net cash flow, the authoritative CFS
closing cash injected into the balance sheet cash rows, total assets,
the balance sheet check, the reconciliation diagnostic and the key
ratios).  The structured diagnostic entries of the source (delta lists,
audit tables, ghost row list, debug component objects) hold arrays and
objects, are never read back by any computation, and are omitted from
the numeric result map. -/
def phaseC (ctx : Ctx) (yearIndex : Nat) (prev : Option RMap) (yid : Nat)
    (m0 : RMap) (p : PLRes) (b : BSRes) : RMap × CFRes :=
  let groups := ctx.allGroups
  -- A. operating activities
  let m := m0.set "Net profit/Profit/Loss after tax" p.pat
  let m := m.set "Add: Depreciation" p.depreciation
  let m := m.set "Add: Term Loan Interest" p.termLoanInterest
  let m := m.set "Add: Working Capital Interest" (p.wcInterestExisting + p.wcInterestProposed)
  let m := m.set "Add: Other Interest" p.otherInterest
  let cashOp0 := p.pat + p.depreciation + p.totalInterest
  -- metadata-driven working capital changes
  let scan := scanGroups groups b.isLlp p.taxD.total prev yid m
  let m := scan.m
  let wcAssetChange := scan.operatingDeltas.foldl (fun a it => if it.2 < 0 then a + -it.2 else a) 0
  let wcLiabilityChange := scan.operatingDeltas.foldl (fun a it => if it.2 < 0 then a else a + it.2) 0
  let m := m.set "Less: Increase in Current Assets" (-wcAssetChange)
  let m := m.set "Increase in Current Liability" wcLiabilityChange
  let cashFromOperating := cashOp0 + wcLiabilityChange - wcAssetChange
  -- global delta audit (numeric diagnostics only)
  let capturedNames := (scan.operatingDeltas ++ scan.investingDeltas ++ scan.financingDeltas).map Prod.fst
  let audit := auditCalc groups capturedNames prev yid
  let m := m.set "_totalBSDelta" audit.1
  let m := m.set "_uncapturedDelta" audit.2
  let m := m.set "Net Cash from Operating Activities" cashFromOperating
  -- B. investing activities
  let purchaseFA :=
    match prev with
    | some pm => (b.netBlock - RMap.get pm "Net block") + p.depreciation
    | none => b.grossBlock
  let m := m.set "Less: Purchase/Addition of Fixed Assets" (-purchaseFA)
  let investingDeltaSum := scan.investingDeltas.foldl (fun a it => a + it.2) 0
  let cashFromInvesting := -purchaseFA + investingDeltaSum
  let m := m.set "Net Cash from Investment Activities" cashFromInvesting
  -- C. financing activities
  let tl :=
    match prev with
    | some pm =>
      let loanChange := b.loanOutstanding - RMap.get pm "Term loans (excluding installments)"
      if loanChange > 0 then (loanChange, 0, loanChange) else (0, -loanChange, loanChange)
    | none => (b.loanOutstanding, 0, b.loanOutstanding)
  let termLoanProceeds := tl.1
  let termLoanRepayment := tl.2.1
  let cashFin1 := tl.2.2
  let m := m.set "Add: Proceeds from Term Loans" termLoanProceeds
  let m := m.set "Less: Repayment of Term Loans" (-termLoanRepayment)
  let otherTermLiabChange :=
    match prev with
    | some pm =>
      (b.totalTermLiabilities - b.loanOutstanding) -
        (jsOrOpt (RMap.find? pm "Total term liability") (jsOrOpt (RMap.find? pm "Total Term Liabilities") 0) -
          RMap.get pm "Term loans (excluding installments)")
    | none => b.totalTermLiabilities - b.loanOutstanding
  let m := m.set "Add/Less: Change in Other Term Liabilities" otherTermLiabChange
  let equityChange :=
    match prev with
    | some pm =>
      if b.isLlp then 0
      else
        jsOrQ (getVal groups m yid "Ordinary share capital") (jsOrQ (getVal groups m yid "Share Capital") 0) -
          jsOrOpt (RMap.find? pm "Ordinary share capital") (jsOrOpt (RMap.find? pm "Share Capital") 0)
    | none =>
      if !b.isLlp then
        jsOrQ (getVal groups m yid "Ordinary share capital") (jsOrQ (getVal groups m yid "Share Capital") 0)
      else
        jsOrQ (getVal groups m yid "Capital") (jsOrQ b.shareCapitalOuter 0)
  let m := m.set "Add/Less: Change in Share Capital" equityChange
  let wcBorrowingChange :=
    match prev with
    | some pm =>
      (b.wcLiabilityExisting + b.wcLiabilityProposed) -
        (RMap.get pm "Existing Working Capital Limit" + RMap.get pm "Proposed Working Capital Limit")
    | none => b.wcLiabilityExisting + b.wcLiabilityProposed
  let cashFin2 := cashFin1 + wcBorrowingChange
  let m := m.set "Add/Less: Change in WC Borrowings" wcBorrowingChange
  let drawingsOutflow := if b.isLlp then jsOrQ (getVal groups m yid "Drawings") 0 else 0
  let cashFin3 := cashFin2 - drawingsOutflow
  let m := m.set "Less: Drawings" (-drawingsOutflow)
  let dividendPaid := p.dividends + p.divTax
  let cashFin4 := cashFin3 - dividendPaid
  let m := m.set "Less: Dividend Paid" (-dividendPaid)
  let totalInterestPaid := p.totalInterest
  let cashFin5 := cashFin4 - totalInterestPaid
  let m := m.set "Less: Interest Paid" (-totalInterestPaid)
  let m := m.set "Less: Term Loan Interest Paid" (-p.termLoanInterest)
  let m := m.set "Less: WC Interest Paid" (-(p.wcInterestExisting + p.wcInterestProposed))
  let m := m.set "Less: Other Interest Paid" (-p.otherInterest)
  let financingDeltaSum := scan.financingDeltas.foldl (fun a it => a + it.2) 0
  let cashFromFinancing := cashFin5 + financingDeltaSum
  let m := m.set "Net Cash from Financing Activities" cashFromFinancing
  -- D. net cash flow
  let netCashFlow := cashFromOperating + cashFromInvesting + cashFromFinancing
  let m := m.set "Net Cash Flow During the Year" netCashFlow
  -- E. opening and closing cash (the CFS is the source of truth)
  let openingCash :=
    if yearIndex == 0 then
      jsOrQ (getVal groups m yid "Cash & Bank Balance")
        (jsOrQ (getVal groups m yid "Cash in Hand")
          (jsOrQ (getVal groups m yid "Balance with Banks") 0))
    else
      jsOrOpt (prev.bind (fun pm => RMap.find? pm "Closing Cash Balance (as per CFS)"))
        (jsOrOpt (prev.bind (fun pm => RMap.find? pm "Cash & Bank Balance"))
          (jsOrOpt (prev.bind (fun pm => RMap.find? pm "Total Cash & Bank")) 0))
  let closingCashCFS := openingCash + netCashFlow
  let m := m.set "Add: Opening Cash Balance" openingCash
  let m := m.set "Closing Cash Balance (as per CFS)" closingCashCFS
  -- F. the CFS cash overwrites every balance sheet cash row
  let m := m.set "Cash & Bank Balance" closingCashCFS
  let m := m.set "Cash & bank balance" closingCashCFS
  let m := m.set "Cash in Hand" closingCashCFS
  let m := m.set "Balance with Banks" 0
  let m := m.set "Total Cash & Bank" closingCashCFS
  let totalCurrentAssets := b.nonCashCurrentAssets + closingCashCFS
  let m := m.set "Total current asset" totalCurrentAssets
  let m := m.set "Total Current Assets" totalCurrentAssets
  let m := m.set "Total Operating Current Assets" b.nonCashCurrentAssets
  let nonCurrentAssets :=
    jsOrQ (sumGroup groups yid "Non-Current" [])
      (jsOrQ (sumGroup groups yid "non_current" [])
        (getVal groups m yid "Long Term Investments" +
          getVal groups m yid "Security Deposits (MSEB/Rent)" +
          getVal groups m yid "Investment in Subsidy" +
          getVal groups m yid "Loans & Advances (LT)" +
          getVal groups m yid "Other Non-Current Assets"))
  let m := m.set "Total Non-Current Assets" nonCurrentAssets
  let totalAssets := closingCashCFS + b.nonCashCurrentAssets + b.totalFixedAssets + nonCurrentAssets
  let m := m.set "Total Asset" totalAssets
  let m := m.set "Total Assets" totalAssets
  -- G. balance sheet check (audit only, no plug)
  let balanceSheetCheck := totalAssets - b.totalLiabilities
  let m := m.set "Balance Sheet Check" balanceSheetCheck
  let m := m.set "BALANCE SHEET CHECK (Assets - Liabilities)" balanceSheetCheck
  let m := m.set "Cash & Bank Balance (as per Balance Sheet)" closingCashCFS
  let m := m.set "CFS Check Diff" balanceSheetCheck
  -- H. reconciliation diagnostic
  let bsCashChange := closingCashCFS -
    (match prev with | some pm => RMap.get pm "Closing Cash Balance (as per CFS)" | none => 0)
  let netCashFlowFromCFS := RMap.get m "Net Cash Flow During the Year"
  let cfsReconciliationDiff := bsCashChange - netCashFlowFromCFS
  let m := m.set "_bsCashChange" bsCashChange
  let m := m.set "_netCashFlowFromCFS" netCashFlowFromCFS
  let m := m.set "_cfsReconciliationDiff" cfsReconciliationDiff
  -- key ratios
  let totalDebt := b.totalTermLiabilities + b.totalCurrentLiabilities
  let debtEquity := if b.totalNetWorth ≠ 0 then totalDebt / b.totalNetWorth else 0
  let currentRat := if b.totalCurrentLiabilities ≠ 0 then totalCurrentAssets / b.totalCurrentLiabilities else 0
  let m := m.set "Current ratio" currentRat
  let inventory := p.closeStockRM + getVal groups m yid "Stock in process" +
    getVal groups m yid "Finished goods"
  let quickAssets := totalCurrentAssets - inventory
  let quickRat := if b.totalCurrentLiabilities ≠ 0 then quickAssets / b.totalCurrentLiabilities else 0
  let m := m.set "Quick ratio" quickRat
  let fixedAssetsCoverage := if b.totalFixedAssets ≠ 0 then b.totalNetWorth / b.totalFixedAssets else 0
  let m := m.set "Fixed Assets Coverage Ratio" fixedAssetsCoverage
  let interestCoverage := if p.totalInterest ≠ 0 then p.opProfit / p.totalInterest else 0
  let m := m.set "Interest coverage ratio" interestCoverage
  let termLoanPrincipal := jsOrOpt ((loanAgg ctx.loanSummaries yid).map LoanAgg.principal) 0
  let dscr :=
    if termLoanPrincipal + p.termLoanInterest ≠ 0 then
      (p.pat + p.depreciation + p.termLoanInterest) / (termLoanPrincipal + p.termLoanInterest)
    else 0
  let m := m.set "Debt Service Coverage Ratio (DSCR)" dscr
  let capitalEmployed := b.totalNetWorth + b.totalTermLiabilities
  let roce := if capitalEmployed ≠ 0 then p.opProfit / capitalEmployed * 100 else 0
  let m := m.set "Return on Capital Employed (ROCE)" roce
  let netProfitMargin := if p.totalRevenue ≠ 0 then p.pat / p.totalRevenue * 100 else 0
  let m := m.set "Net profit margin" netProfitMargin
  let returnOnNetWorth := if b.totalNetWorth ≠ 0 then p.pat / b.totalNetWorth * 100 else 0
  let m := m.set "Return on Net worth" returnOnNetWorth
  let avgInventory := if yearIndex > 0 then (p.openStockRM + p.closeStockRM) / 2 else p.closeStockRM
  let inventoryTurnover := if avgInventory ≠ 0 then p.cogs / avgInventory else 0
  let m := m.set "Inventory turnover ratio" inventoryTurnover
  let fixedAssetTurnover := if b.totalFixedAssets ≠ 0 then p.totalRevenue / b.totalFixedAssets else 0
  let m := m.set "Fixed asset turnover ratio" fixedAssetTurnover
  let taVal := RMap.get m "Total Asset"
  let assetTurnover := if taVal ≠ 0 then p.totalRevenue / taVal else 0
  let m := m.set "Asset turnover ratio" assetTurnover
  -- the residual audit and the ghost row detection write only structured
  -- diagnostic objects and are therefore not part of the numeric map
  (m,
    { cashFromOperating := cashFromOperating
      wcAssetChange := wcAssetChange
      wcLiabilityChange := wcLiabilityChange
      totalBSDelta := audit.1
      uncapturedDelta := audit.2
      purchaseFA := purchaseFA
      investingDeltaSum := investingDeltaSum
      cashFromInvesting := cashFromInvesting
      termLoanProceeds := termLoanProceeds
      termLoanRepayment := termLoanRepayment
      otherTermLiabChange := otherTermLiabChange
      equityChange := equityChange
      wcBorrowingChange := wcBorrowingChange
      drawingsOutflow := drawingsOutflow
      dividendPaid := dividendPaid
      totalInterestPaid := totalInterestPaid
      financingDeltaSum := financingDeltaSum
      cashFromFinancing := cashFromFinancing
      netCashFlow := netCashFlow
      openingCash := openingCash
      closingCashCFS := closingCashCFS
      totalCurrentAssets := totalCurrentAssets
      nonCurrentAssets := nonCurrentAssets
      totalAssets := totalAssets
      balanceSheetCheck := balanceSheetCheck
      bsCashChange := bsCashChange
      cfsReconciliationDiff := cfsReconciliationDiff
      totalDebt := totalDebt
      debtEquity := debtEquity
      currentRat := currentRat
      inventory := inventory
      quickAssets := quickAssets
      quickRat := quickRat
      fixedAssetsCoverage := fixedAssetsCoverage
      interestCoverage := interestCoverage
      termLoanPrincipal := termLoanPrincipal
      dscr := dscr
      capitalEmployed := capitalEmployed
      roce := roce
      netProfitMargin := netProfitMargin
      returnOnNetWorth := returnOnNetWorth
      avgInventory := avgInventory
      inventoryTurnover := inventoryTurnover
      fixedAssetTurnover := fixedAssetTurnover
      assetTurnover := assetTurnover })

/-! ## The per-year computation and the year waterfall -/

/-- One year of the engine: phase P (operating statement), phase B
(balance sheet) and phase C (cash flow statement and ratios) in
sequence over the threaded result map. -/
def computeYear (ctx : Ctx) (yearIndex : Nat) (prev : Option RMap) (yid : Nat)
    (m0 : RMap) : RMap × PLRes × BSRes × CFRes :=
  let pm := phaseP ctx yearIndex prev yid m0
  let bm := phaseB ctx yearIndex prev yid pm.1 pm.2
  let cm := phaseC ctx yearIndex prev yid bm.1 pm.2 bm.2
  (cm.1, pm.2, bm.2, cm.2)

/-- The year loop: process the sorted years in order, each year reading
the stored map of the previous year (reference semantics: the store is
read at the start of the iteration) and its own pre-seeded map (which
may hold the forced opening stock injected by the Target-GPR block of
the previous iteration); the injection of the current year is applied to
the store before the next iteration. -/
def runYears (ctx : Ctx) : List YearSetting → Nat → Option Nat → Store → Store
  | [], _, _, store => store
  | y :: rest, i, prevId, store =>
    let prev := prevId.map (Store.getY store)
    let out := computeYear ctx i prev y.id (Store.getY store y.id)
    let store := Store.setY store y.id out.1
    let store :=
      match out.2.1.inject with
      | some (nid, v) =>
        Store.setY store nid ((Store.getY store nid).set "_forced_opening_stock_rm" v)
      | none => store
    runYears ctx rest (i + 1) (some y.id) store

/-- Shallow embedding of calculateAll: initialize one empty result map
per year setting, defensively re-sort the years by the first 4-digit
number of the label, and run the waterfall.  The returned store is the
results object of the source. -/
def calculateAll (ctx : Ctx) : Store :=
  let init := ctx.yearSettings.foldl (fun s y => Store.setY s y.id []) []
  runYears ctx (jsSortYears ctx.yearSettings) 0 none init

/-! ## Helper lemmas for the progressive tax schedule -/

/-- One bounded slab of the progressive schedule. -/
def slabPiece (lo hi rate p : ℚ) : ℚ := if p > lo then (min p hi - lo) * rate / 100 else 0

/-- The unbounded top slab. -/
def topPiece (lo rate p : ℚ) : ℚ := if p > lo then (p - lo) * rate / 100 else 0

/-- The pre-rebate progressive schedule of the proprietorship branch. -/
def propSlabs (p : ℚ) : ℚ :=
  slabPiece 300000 700000 5 p + slabPiece 700000 1000000 10 p +
    slabPiece 1000000 1200000 15 p + slabPiece 1200000 1500000 20 p +
    topPiece 1500000 30 p

theorem slabPiece_nonneg (lo hi rate p : ℚ) (hlh : lo ≤ hi) (hr : 0 ≤ rate) :
    0 ≤ slabPiece lo hi rate p := by
  unfold slabPiece
  split_ifs with h
  · have hmin : lo ≤ min p hi := le_min (le_of_lt h) hlh
    have : 0 ≤ (min p hi - lo) * rate := mul_nonneg (by linarith) hr
    positivity
  · exact le_refl 0

theorem topPiece_nonneg (lo rate p : ℚ) (hr : 0 ≤ rate) : 0 ≤ topPiece lo rate p := by
  unfold topPiece
  split_ifs with h
  · have : 0 ≤ (p - lo) * rate := mul_nonneg (by linarith) hr
    positivity
  · exact le_refl 0

theorem slabPiece_mono (lo hi rate : ℚ) (p q : ℚ) (hlh : lo ≤ hi) (hr : 0 ≤ rate)
    (hpq : p ≤ q) : slabPiece lo hi rate p ≤ slabPiece lo hi rate q := by
  unfold slabPiece
  split_ifs with h1 h2 h2
  · have hmm : min p hi ≤ min q hi := min_le_min hpq le_rfl
    have : (min p hi - lo) * rate ≤ (min q hi - lo) * rate :=
      mul_le_mul_of_nonneg_right (by linarith) hr
    linarith
  · exact absurd (lt_of_lt_of_le h1 hpq) h2
  · have hmin : lo ≤ min q hi := le_min (le_of_lt h2) hlh
    have : 0 ≤ (min q hi - lo) * rate := mul_nonneg (by linarith) hr
    positivity
  · exact le_refl 0

theorem topPiece_mono (lo rate : ℚ) (p q : ℚ) (hr : 0 ≤ rate) (hpq : p ≤ q) :
    topPiece lo rate p ≤ topPiece lo rate q := by
  unfold topPiece
  split_ifs with h1 h2 h2
  · have : (p - lo) * rate ≤ (q - lo) * rate := mul_le_mul_of_nonneg_right (by linarith) hr
    linarith
  · exact absurd (lt_of_lt_of_le h1 hpq) h2
  · have : 0 ≤ (q - lo) * rate := mul_nonneg (by linarith) hr
    positivity
  · exact le_refl 0

theorem propSlabs_nonneg (p : ℚ) : 0 ≤ propSlabs p := by
  unfold propSlabs
  have h1 := slabPiece_nonneg 300000 700000 5 p (by norm_num) (by norm_num)
  have h2 := slabPiece_nonneg 700000 1000000 10 p (by norm_num) (by norm_num)
  have h3 := slabPiece_nonneg 1000000 1200000 15 p (by norm_num) (by norm_num)
  have h4 := slabPiece_nonneg 1200000 1500000 20 p (by norm_num) (by norm_num)
  have h5 := topPiece_nonneg 1500000 30 p (by norm_num)
  linarith

theorem propSlabs_mono (p q : ℚ) (hpq : p ≤ q) : propSlabs p ≤ propSlabs q := by
  unfold propSlabs
  have h1 := slabPiece_mono 300000 700000 5 p q (by norm_num) (by norm_num) hpq
  have h2 := slabPiece_mono 700000 1000000 10 p q (by norm_num) (by norm_num) hpq
  have h3 := slabPiece_mono 1000000 1200000 15 p q (by norm_num) (by norm_num) hpq
  have h4 := slabPiece_mono 1200000 1500000 20 p q (by norm_num) (by norm_num) hpq
  have h5 := topPiece_mono 1500000 30 p q (by norm_num) hpq
  linarith

/-- The proprietorship tax as the rebated progressive schedule. -/
theorem propTax_eq (p : ℚ) :
    (calculateTax p "proprietorship").tax = if p ≤ 700000 then 0 else propSlabs p := by
  by_cases hp : p ≤ 0
  · have h7 : p ≤ 700000 := by linarith
    simp [calculateTax, hp, h7]
  · simp +decide [calculateTax, hp, propSlabs, slabPiece, topPiece]

/-! ## Claim C5 -/

/-- C5: for the progressive individual regime, the tax returned by
calculateTax is non-decreasing in the profit, it is exactly 0 for every
profit at most 700000, and the surcharge and the cess are 0 for every
profit in this regime. -/
theorem C5_progressive_tax_monotone_rebate_no_surcharge :
    (∀ p q : ℚ, p ≤ q →
      (calculateTax p "proprietorship").tax ≤ (calculateTax q "proprietorship").tax) ∧
    (∀ p : ℚ, p ≤ 700000 → (calculateTax p "proprietorship").tax = 0) ∧
    (∀ p : ℚ, (calculateTax p "proprietorship").surcharge = 0 ∧
      (calculateTax p "proprietorship").cess = 0) := by
  refine ⟨fun p q hpq => ?_, fun p hp => ?_, fun p => ?_⟩
  · rw [propTax_eq, propTax_eq]
    split_ifs with h1 h2 h2
    · exact le_refl 0
    · exact propSlabs_nonneg q
    · exact absurd (le_trans hpq h2) h1
    · exact propSlabs_mono p q hpq
  · rw [propTax_eq, if_pos hp]
  · by_cases hp : p ≤ 0 <;> simp +decide [calculateTax, hp]

/-- Witness for C5 at concrete profits. -/
theorem C5_witness :
    ((500000 : ℚ) ≤ 800000 ∧
      (calculateTax 500000 "proprietorship").tax ≤ (calculateTax 800000 "proprietorship").tax) ∧
    ((650000 : ℚ) ≤ 700000 ∧ (calculateTax 650000 "proprietorship").tax = 0) ∧
    (calculateTax 2000000 "proprietorship").surcharge = 0 := by
  refine ⟨⟨by norm_num, C5_progressive_tax_monotone_rebate_no_surcharge.1 500000 800000 (by norm_num)⟩,
    ⟨by norm_num, C5_progressive_tax_monotone_rebate_no_surcharge.2.1 650000 (by norm_num)⟩,
    (C5_progressive_tax_monotone_rebate_no_surcharge.2.2 2000000).1⟩

/-! ## Claim C6 -/

/-- C6: for every regime string and every profit at most 0, calculateTax
returns tax, surcharge, cess and total all equal to 0. -/
theorem C6_nonpositive_profit_all_zero (pbt : ℚ) (regime : String) (h : pbt ≤ 0) :
    calculateTax pbt regime = ⟨0, 0, 0, 0⟩ := by
  simp [calculateTax, h]

/-- Witness for C6 at profit 0 and at a negative profit. -/
theorem C6_witness :
    ((0 : ℚ) ≤ 0 ∧ calculateTax 0 "domestic_22" = ⟨0, 0, 0, 0⟩) ∧
    ((-123456 : ℚ) ≤ 0 ∧ calculateTax (-123456) "llp" = ⟨0, 0, 0, 0⟩) :=
  ⟨⟨by norm_num, C6_nonpositive_profit_all_zero 0 "domestic_22" (by norm_num)⟩,
    ⟨by norm_num, C6_nonpositive_profit_all_zero (-123456) "llp" (by norm_num)⟩⟩

/-! ## Claim C7 -/

/-- C7 counterexample: at profit 1000000 an unrecognized regime yields
the all-zero output, which differs from the output of every recognized
branch, in particular from the default regime domestic_22 used by the
callers; so an invalid regime does not fall back to the default
regime branch. -/
theorem C7_counterexample :
    calculateTax 1000000 "unknown_regime" = ⟨0, 0, 0, 0⟩ ∧
    (calculateTax 1000000 "domestic_22").tax = 220000 ∧
    (calculateTax 1000000 "llp").tax = 300000 ∧
    (calculateTax 1000000 "proprietorship").tax = 50000 ∧
    calculateTax 1000000 "unknown_regime" ≠ calculateTax 1000000 "domestic_22" := by
  refine ⟨?_, ?_, ?_, ?_, ?_⟩
  · norm_num +decide [calculateTax]
  · norm_num +decide [calculateTax]
  · norm_num +decide [calculateTax]
  · norm_num +decide [calculateTax, min_def]
  · intro h
    have := congrArg TaxOut.tax h
    norm_num +decide [calculateTax] at this

/-- C7 amended: calling calculateTax with a regime other than the three
recognized ones never fails and returns the all-zero record for every
profit (the fall-through computes no tax at all rather than the default
regime figures). -/
theorem C7_unrecognized_regime_all_zero (pbt : ℚ) (regime : String)
    (h1 : regime ≠ "domestic_22") (h2 : regime ≠ "llp") (h3 : regime ≠ "proprietorship") :
    calculateTax pbt regime = ⟨0, 0, 0, 0⟩ := by
  by_cases hp : pbt ≤ 0 <;> simp [calculateTax, hp, h1, h2, h3]

/-- Witness for the amended C7 at a concrete profit and regime. -/
theorem C7_witness :
    ("bogus" ≠ "domestic_22") ∧ ("bogus" ≠ "llp") ∧ ("bogus" ≠ "proprietorship") ∧
    calculateTax 987654 "bogus" = ⟨0, 0, 0, 0⟩ :=
  ⟨by decide, by decide, by decide,
    C7_unrecognized_regime_all_zero 987654 "bogus" (by decide) (by decide) (by decide)⟩

/-! ## Claim C10 -/

/-- C10: Sum-group sums only the rows of the first group (in input
order) matching the fragment by name or tag; the rows of every later
group, matching or not, contribute nothing (the sum does not depend on
the groups after the first match). -/
theorem C10_sumGroup_first_matching_group_only
    (pre post : List Group) (g : Group) (yid : Nat) (part : String) (ex : List String)
    (hg : groupMatches part g = true)
    (hpre : ∀ g2 ∈ pre, groupMatches part g2 = false) :
    sumGroup (pre ++ g :: post) yid part ex = sumGroupRows g.rows yid ex ∧
    sumGroup (pre ++ g :: post) yid part ex = sumGroup (pre ++ [g]) yid part ex := by
  have hprenone : pre.find? (groupMatches part) = none := by
    rw [List.find?_eq_none]
    intro x hx
    simp [hpre x hx]
  have hfind : ∀ tail : List Group,
      (pre ++ g :: tail).find? (groupMatches part) = some g := by
    intro tail
    rw [List.find?_append, hprenone]
    simp [List.find?_cons, hg]
  constructor
  · rw [sumGroup, hfind post]
  · rw [sumGroup, hfind post, sumGroup, hfind []]

/-- Witness groups for C10. -/
def C10group (nm : String) (v : ℚ) : Group :=
  { name := nm, page_type := "operating", rows := [{ name := "item", data := [⟨1, v⟩] }] }

/-- Witness for C10: a non-matching group, then the first matching group
holding 11, then a second matching group holding 99 that contributes
nothing. -/
theorem C10_witness :
    groupMatches "Selling" (C10group "Selling expenses" 11) = true ∧
    (∀ g2 ∈ [C10group "Revenue" 5], groupMatches "Selling" g2 = false) ∧
    sumGroup [C10group "Revenue" 5, C10group "Selling expenses" 11, C10group "Selling misc" 99]
      1 "Selling" [] = sumGroupRows (C10group "Selling expenses" 11).rows 1 [] ∧
    sumGroupRows (C10group "Selling expenses" 11).rows 1 [] = 11 := by
  refine ⟨by decide, ?_, ?_, ?_⟩
  · intro g2 hg2
    simp only [List.mem_singleton] at hg2
    subst hg2
    decide
  · exact (C10_sumGroup_first_matching_group_only [C10group "Revenue" 5]
      [C10group "Selling misc" 99] (C10group "Selling expenses" 11) 1 "Selling" []
      (by decide) (by intro g2 hg2; simp only [List.mem_singleton] at hg2; subst hg2; decide)).1
  · norm_num +decide [sumGroupRows, sumGroupRow, C10group, dpValue, normAlnum, jsLower,
      isAlnumLower, jsIncludes, infixAux, jsStartsWith]

/-! ## Claim C9 -/

/-- The row matcher of getVal in first-match form: exact lowered-name
equality, or the Capital alias. -/
def getValMatchL (kl : String) (r : Row) : Bool :=
  jsLower r.name == kl ||
    (kl == "capital" && (jsLower r.name == "ordinary share capital" || jsLower r.name == "share capital"))

theorem getValRow_eq (yid : Nat) (kl : String) (r : Row) :
    getValRow yid kl r = if getValMatchL kl r then some (dpValue r yid) else none := by
  rw [getValRow, getValMatchL]
  by_cases h1 : jsLower r.name = kl
  · simp [h1]
  · by_cases h2a : kl = "capital"
    · by_cases hb : jsLower r.name = "ordinary share capital"
      · rw [hb] at h1 ⊢
        simp [h1, h2a]
      · by_cases hc : jsLower r.name = "share capital"
        · rw [hc] at h1 ⊢
          simp [h1, h2a]
        · simp [h1, h2a, hb, hc]
    · simp [h1, h2a]

theorem getValRows_eq (yid : Nat) (kl : String) (rows : List Row) :
    getValRows yid kl rows = (rows.find? (getValMatchL kl)).map (fun r => dpValue r yid) := by
  induction rows with
  | nil => rfl
  | cons r t ih =>
    rw [getValRows, getValRow_eq, List.find?_cons]
    by_cases h : getValMatchL kl r = true
    · simp [h]
    · simp only [Bool.not_eq_true] at h
      simp [h, ih]

theorem getValGroups_eq (yid : Nat) (kl : String) (groups : List Group) :
    getValGroups yid kl groups =
      ((groups.flatMap Group.rows).find? (getValMatchL kl)).map (fun r => dpValue r yid) := by
  induction groups with
  | nil => rfl
  | cons g t ih =>
    rw [getValGroups, getValRows_eq, List.flatMap_cons, List.find?_append]
    cases hf : g.rows.find? (getValMatchL kl) with
    | some r => simp [hf, Option.or]
    | none => simp [hf, Option.or, ih]

/-- C9 amended: Lookup-by-key first returns a value already present in
the result map; otherwise it lowercases (without trimming) the key and
every row name and returns the value of the first row matching exactly,
with the Capital alias matching the share capital row names; and it
returns 0 when nothing matches, never failing. -/
theorem C9_getVal_lowercase_first_match (groups : List Group) (m : RMap) (yid : Nat)
    (key : String) :
    getVal groups m yid key =
      match RMap.find? m key with
      | some v => v
      | none =>
        match (groups.flatMap Group.rows).find? (getValMatchL (jsLower key)) with
        | some r => dpValue r yid
        | none => 0 := by
  rw [getVal]
  cases RMap.find? m key with
  | some v => rfl
  | none =>
    rw [getValGroups_eq]
    cases (groups.flatMap Group.rows).find? (getValMatchL (jsLower key)) with
    | some r => rfl
    | none => rfl

/-- The counterexample input for C9: a single visible row whose display
name carries a trailing space. -/
def C9groups : List Group :=
  [{ name := "Current assets", page_type := "asset",
     rows := [{ name := "Cash ", data := [⟨1, 5⟩] }] }]

/-- The claim version of Lookup-by-key, following the claim words: the
key and the row names are normalized by lowercasing AND trimming. -/
def getValSpecTrim (groups : List Group) (m : RMap) (yid : Nat) (key : String) : ℚ :=
  match RMap.find? m key with
  | some v => v
  | none =>
    let kl := jsTrim (jsLower key)
    match (groups.flatMap Group.rows).find? (fun r =>
        jsTrim (jsLower r.name) == kl ||
        (kl == "capital" &&
          (jsTrim (jsLower r.name) == "ordinary share capital" ||
            jsTrim (jsLower r.name) == "share capital"))) with
    | some r => dpValue r yid
    | none => 0

/-- C9 counterexample: the source lowercases but does not trim, so the
key cash fails to match the row named Cash-with-trailing-space and
getVal returns 0, while the claimed trimmed normalization would return
the row value 5. -/
theorem C9_counterexample :
    getVal C9groups [] 1 "cash" = 0 ∧
    getValSpecTrim C9groups [] 1 "cash" = 5 ∧
    getVal C9groups [] 1 "cash" ≠ getValSpecTrim C9groups [] 1 "cash" := by
  refine ⟨?_, ?_, ?_⟩
  · norm_num +decide [getVal, RMap.find?, getValGroups, getValRows, getValRow, C9groups,
      jsLower, dpValue]
  · norm_num +decide [getValSpecTrim, RMap.find?, C9groups, jsLower, jsTrim, isWs, dpValue]
  · norm_num +decide [getVal, getValSpecTrim, RMap.find?, getValGroups, getValRows, getValRow,
      C9groups, jsLower, jsTrim, isWs, dpValue]

/-! ## The clean per-year recursion and its bridge to the store -/

/-- The sorted year list of a computation. -/
def sortedYS (ctx : Ctx) : List YearSetting := jsSortYears ctx.yearSettings

/-- The year-setting id at a sorted position (default id 0 out of
bounds; the bridge lemma is only used in bounds). -/
def ysIdAt (ctx : Ctx) (k : Nat) : Nat := ((sortedYS ctx).getD k ⟨0, ""⟩).id

/-- The per-year outputs of the engine as a direct recursion: year k
reads the full map of year k-1 and starts from the map seeded by the
Target-GPR injection of year k-1 when that injection targets it. -/
def yearOut (ctx : Ctx) : Nat → RMap × PLRes × BSRes × CFRes
  | 0 => computeYear ctx 0 none (ysIdAt ctx 0) []
  | k + 1 =>
    let po := yearOut ctx k
    let m0 : RMap :=
      match po.2.1.inject with
      | some (nid, v) =>
        if nid = ysIdAt ctx (k + 1) then [("_forced_opening_stock_rm", v)] else []
      | none => []
    computeYear ctx (k + 1) (some po.1) (ysIdAt ctx (k + 1)) m0

/-- The pre-seeded map of year k (the forced-opening-stock injection of
the previous year when present). -/
def yearPending (ctx : Ctx) : Nat → RMap
  | 0 => []
  | k + 1 =>
    match (yearOut ctx k).2.1.inject with
    | some (nid, v) =>
      if nid = ysIdAt ctx (k + 1) then [("_forced_opening_stock_rm", v)] else []
    | none => []

/-- The final result map of year k. -/
def yrMap (ctx : Ctx) (k : Nat) : RMap := (yearOut ctx k).1

/-- The operating statement scalars of year k. -/
def yrPL (ctx : Ctx) (k : Nat) : PLRes := (yearOut ctx k).2.1

/-- The balance sheet scalars of year k. -/
def yrBS (ctx : Ctx) (k : Nat) : BSRes := (yearOut ctx k).2.2.1

/-- The cash flow scalars of year k. -/
def yrCF (ctx : Ctx) (k : Nat) : CFRes := (yearOut ctx k).2.2.2

theorem yearOut_zero (ctx : Ctx) :
    yearOut ctx 0 = computeYear ctx 0 none (ysIdAt ctx 0) (yearPending ctx 0) := rfl

theorem yearOut_succ (ctx : Ctx) (k : Nat) :
    yearOut ctx (k + 1) =
      computeYear ctx (k + 1) (some (yearOut ctx k).1) (ysIdAt ctx (k + 1))
        (yearPending ctx (k + 1)) := rfl

/-- The GPR injection always targets the year at the next input
position, and only exists when that position is in bounds. -/
theorem gprAdjust_inject_target (gpr : Option GPRSettings) (ys : List YearSetting)
    (i : Nat) (rev : ℚ) (prev : Option RMap) (st : CogsAcc × RMap) (nid : Nat) (v : ℚ)
    (h : (gprAdjust gpr ys i rev prev st).2.2 = some (nid, v)) :
    i + 1 < ys.length ∧ nid = (ys.getD (i + 1) ⟨0, ""⟩).id := by
  unfold gprAdjust at h
  cases gpr with
  | none => simp at h
  | some g =>
    dsimp only at h
    by_cases hc : g.enabled = true ∧ rev > 0
    · rw [if_pos hc] at h
      by_cases hi : (i == 0) = true
      · rw [if_pos hi] at h
        simp at h
      · rw [if_neg hi] at h
        by_cases hl : i + 1 < ys.length
        · rw [if_pos hl] at h
          obtain ⟨y, hy, hyv⟩ := Option.map_eq_some'.mp h
          have hget : ys[i + 1]? = some y := by
            rw [← List.get?_eq_getElem?]
            exact hy
          have hyd : ys.getD (i + 1) ⟨0, ""⟩ = y := by
            rw [List.getD_eq_getElem?_getD, hget]
            rfl
          refine ⟨hl, ?_⟩
          rw [hyd]
          exact ((Prod.ext_iff.mp hyv).1).symm
        · rw [if_neg hl] at h
          exact absurd h (by simp)
    · rw [if_neg hc] at h
      simp at h

/-- The injection of a year lifted to phaseP. -/
theorem phaseP_inject_target (ctx : Ctx) (i : Nat) (prev : Option RMap) (yid : Nat)
    (m0 : RMap) (nid : Nat) (v : ℚ)
    (h : (phaseP ctx i prev yid m0).2.inject = some (nid, v)) :
    i + 1 < ctx.yearSettings.length ∧ nid = (ctx.yearSettings.getD (i + 1) ⟨0, ""⟩).id := by
  have hrfl : (phaseP ctx i prev yid m0).2.inject =
      (gprAdjust ctx.gprSettings ctx.yearSettings i (totalRevenueOf ctx.allGroups yid) prev
        (cogsScan (cogsRowsOf ctx.allGroups) i prev yid
          (RMap.set (RMap.set m0 "Total Revenue" (totalRevenueOf ctx.allGroups yid))
            "Total Sales" (totalRevenueOf ctx.allGroups yid)))).2.2 := rfl
  exact gprAdjust_inject_target _ _ _ _ _ _ _ _ (hrfl ▸ h)

/-- The injection of a year lifted to yearOut. -/
theorem yearOut_inject_target (ctx : Ctx)
    (hsort : jsSortYears ctx.yearSettings = ctx.yearSettings) (k : Nat) (nid : Nat) (v : ℚ)
    (h : (yearOut ctx k).2.1.inject = some (nid, v)) :
    k + 1 < ctx.yearSettings.length ∧ nid = ysIdAt ctx (k + 1) := by
  have hcy : ∀ (i : Nat) (prev : Option RMap) (yid : Nat) (m0 : RMap),
      (computeYear ctx i prev yid m0).2.1.inject = (phaseP ctx i prev yid m0).2.inject :=
    fun _ _ _ _ => rfl
  cases k with
  | zero =>
    rw [yearOut_zero, hcy] at h
    have hp := phaseP_inject_target _ _ _ _ _ _ _ h
    refine ⟨hp.1, ?_⟩
    rw [hp.2, ysIdAt, sortedYS, hsort]
  | succ k2 =>
    rw [yearOut_succ, hcy] at h
    have hp := phaseP_inject_target _ _ _ _ _ _ _ h
    refine ⟨hp.1, ?_⟩
    rw [hp.2, ysIdAt, sortedYS, hsort]

/-- The initialized store holds an empty map for every id. -/
theorem initStore_getY (ys : List YearSetting) (id : Nat) :
    Store.getY (ys.foldl (fun s y => Store.setY s y.id []) []) id = [] := by
  have hgen : ∀ (l : List YearSetting) (s0 : Store), Store.getY s0 id = [] →
      Store.getY (l.foldl (fun s y => Store.setY s y.id []) s0) id = [] := by
    intro l
    induction l with
    | nil => intro s0 h; exact h
    | cons y t ih =>
      intro s0 h
      apply ih
      by_cases hy : y.id = id
      · subst hy
        exact Store.getY_setY_same s0 y.id []
      · rw [Store.getY_setY_other s0 y.id id [] hy]
        exact h
  exact hgen ys [] rfl

/-- Distinct sorted positions have distinct year ids when the id list
has no duplicates and the input is already sorted. -/
theorem ysIdAt_inj (ctx : Ctx)
    (hsort : jsSortYears ctx.yearSettings = ctx.yearSettings)
    (hnodup : (ctx.yearSettings.map YearSetting.id).Nodup)
    (i j : Nat) (hi : i < ctx.yearSettings.length) (hj : j < ctx.yearSettings.length)
    (hij : i ≠ j) : ysIdAt ctx i ≠ ysIdAt ctx j := by
  intro heq
  rw [ysIdAt, ysIdAt, sortedYS, hsort, List.getD_eq_getElem _ _ hi, List.getD_eq_getElem _ _ hj] at heq
  have hmi : i < (ctx.yearSettings.map YearSetting.id).length := by simpa using hi
  have hmj : j < (ctx.yearSettings.map YearSetting.id).length := by simpa using hj
  have : (ctx.yearSettings.map YearSetting.id)[i] = (ctx.yearSettings.map YearSetting.id)[j] := by
    rw [List.getElem_map, List.getElem_map]
    exact heq
  exact hij ((hnodup.getElem_inj_iff).mp this)

/-- The year loop computes exactly the clean recursion: given the
invariants of the store before position k, every processed year ends up
holding the map of yearOut. -/
theorem runYears_spec (ctx : Ctx)
    (hsort : jsSortYears ctx.yearSettings = ctx.yearSettings)
    (hnodup : (ctx.yearSettings.map YearSetting.id).Nodup) :
    ∀ (rest : List YearSetting) (k : Nat) (prevId : Option Nat) (store : Store),
      rest = ctx.yearSettings.drop k →
      prevId = (if k = 0 then none else some (ysIdAt ctx (k - 1))) →
      (∀ j, j < k → j < ctx.yearSettings.length →
        Store.getY store (ysIdAt ctx j) = (yearOut ctx j).1) →
      (k < ctx.yearSettings.length → Store.getY store (ysIdAt ctx k) = yearPending ctx k) →
      (∀ j, k < j → j < ctx.yearSettings.length → Store.getY store (ysIdAt ctx j) = []) →
      ∀ j, j < ctx.yearSettings.length →
        Store.getY (runYears ctx rest k prevId store) (ysIdAt ctx j) = (yearOut ctx j).1 := by
  intro rest
  induction rest with
  | nil =>
    intro k prevId store hrest hprev hA _hB _hC j hj
    rw [runYears]
    have hlen : ctx.yearSettings.length ≤ k := by
      by_contra hlt
      push_neg at hlt
      rw [List.drop_eq_getElem_cons hlt] at hrest
      exact List.cons_ne_nil _ _ hrest.symm
    exact hA j (lt_of_lt_of_le hj hlen) hj
  | cons y t ih =>
    intro k prevId store hrest hprev hA hB hC j hj
    have hk : k < ctx.yearSettings.length := by
      by_contra hge
      push_neg at hge
      rw [List.drop_eq_nil_of_le hge] at hrest
      exact List.cons_ne_nil _ _ hrest
    rw [List.drop_eq_getElem_cons hk] at hrest
    have hy : y = ctx.yearSettings[k] := ((List.cons.injEq _ _ _ _).mp hrest).1
    have ht : t = ctx.yearSettings.drop (k + 1) := ((List.cons.injEq _ _ _ _).mp hrest).2
    have hyid : y.id = ysIdAt ctx k := by
      rw [hy, ysIdAt, sortedYS, hsort, List.getD_eq_getElem _ _ hk]
    -- the computed year equals the clean recursion
    have hout : computeYear ctx k (prevId.map (Store.getY store)) y.id (Store.getY store y.id) =
        yearOut ctx k := by
      cases k with
      | zero =>
        have hprevm : prevId.map (Store.getY store) = none := by rw [hprev]; rfl
        rw [hprevm, hyid, hB hk, yearOut_zero]
      | succ k2 =>
        have hprevm : prevId.map (Store.getY store) = some (yearOut ctx k2).1 := by
          rw [hprev]
          simp only [Nat.succ_ne_zero, if_false, Option.map_some', Nat.add_sub_cancel]
          rw [hA k2 (Nat.lt_succ_self k2) (Nat.lt_of_succ_lt hk)]
        rw [hprevm, hyid, hB hk, yearOut_succ]
    rw [runYears]
    simp only [hout]
    set store1 := Store.setY store y.id (yearOut ctx k).1 with hstore1
    apply ih (k + 1) (some y.id)
    · exact ht
    · simp [hyid]
    · -- processed years
      intro j2 hj2k hj2len
      rcases Nat.lt_succ_iff_lt_or_eq.mp hj2k with hj2 | hj2
      · -- j2 < k : untouched by both updates
        have hne1 : ysIdAt ctx j2 ≠ y.id := by
          rw [hyid]
          exact ysIdAt_inj ctx hsort hnodup j2 k hj2len hk (Nat.ne_of_lt hj2)
        have h1 : Store.getY store1 (ysIdAt ctx j2) = (yearOut ctx j2).1 := by
          rw [hstore1, Store.getY_setY_other _ _ _ _ (fun h => hne1 h.symm)]
          exact hA j2 hj2 hj2len
        cases hinj : (yearOut ctx k).2.1.inject with
        | none => simpa [hinj] using h1
        | some nv =>
          obtain ⟨nid, v⟩ := nv
          have htar := yearOut_inject_target ctx hsort k nid v hinj
          have hne2 : ysIdAt ctx j2 ≠ nid := by
            rw [htar.2]
            exact ysIdAt_inj ctx hsort hnodup j2 (k + 1) hj2len htar.1
              (Nat.ne_of_lt (Nat.lt_succ_of_lt hj2))
          simpa [hinj, Store.getY_setY_other _ _ _ _ (fun h => hne2 h.symm)] using h1
      · -- j2 = k : the map just written
        subst hj2
        have h1 : Store.getY store1 (ysIdAt ctx j2) = (yearOut ctx j2).1 := by
          rw [hstore1, ← hyid, Store.getY_setY_same]
        cases hinj : (yearOut ctx j2).2.1.inject with
        | none => simpa [hinj] using h1
        | some nv =>
          obtain ⟨nid, v⟩ := nv
          have htar := yearOut_inject_target ctx hsort j2 nid v hinj
          have hne2 : ysIdAt ctx j2 ≠ nid := by
            rw [htar.2]
            exact ysIdAt_inj ctx hsort hnodup j2 (j2 + 1) hj2len htar.1 (Nat.ne_of_lt (Nat.lt_succ_self j2))
          simpa [hinj, Store.getY_setY_other _ _ _ _ (fun h => hne2 h.symm)] using h1
    · -- the pending map of the next year
      intro hk1
      have hne0 : ysIdAt ctx (k + 1) ≠ y.id := by
        rw [hyid]
        exact ysIdAt_inj ctx hsort hnodup (k + 1) k hk1 hk (Nat.succ_ne_self k)
      have h1 : Store.getY store1 (ysIdAt ctx (k + 1)) = [] := by
        rw [hstore1, Store.getY_setY_other _ _ _ _ (fun h => hne0 h.symm)]
        exact hC (k + 1) (Nat.lt_succ_self k) hk1
      cases hinj : (yearOut ctx k).2.1.inject with
      | none => simpa [hinj, yearPending] using h1
      | some nv =>
        obtain ⟨nid, v⟩ := nv
        have htar := yearOut_inject_target ctx hsort k nid v hinj
        have hnid : nid = ysIdAt ctx (k + 1) := htar.2
        subst hnid
        simp only [hinj, yearPending]
        rw [Store.getY_setY_same, h1]
        simp [RMap.set]
    · -- the untouched future years
      intro j2 hj2 hj2len
      have hne1 : ysIdAt ctx j2 ≠ y.id := by
        rw [hyid]
        exact ysIdAt_inj ctx hsort hnodup j2 k hj2len hk
          (Nat.ne_of_gt (Nat.lt_of_succ_lt hj2))
      have h1 : Store.getY store1 (ysIdAt ctx j2) = [] := by
        rw [hstore1, Store.getY_setY_other _ _ _ _ (fun h => hne1 h.symm)]
        exact hC j2 (Nat.lt_of_succ_lt hj2) hj2len
      cases hinj : (yearOut ctx k).2.1.inject with
      | none => simpa [hinj] using h1
      | some nv =>
        obtain ⟨nid, v⟩ := nv
        have htar := yearOut_inject_target ctx hsort k nid v hinj
        have hne2 : ysIdAt ctx j2 ≠ nid := by
          rw [htar.2]
          exact ysIdAt_inj ctx hsort hnodup j2 (k + 1) hj2len htar.1 (Nat.ne_of_gt hj2)
        simpa [hinj, Store.getY_setY_other _ _ _ _ (fun h => hne2 h.symm)] using h1
    · exact hj

/-- The bridge: in a computation whose year settings are already sorted
and have distinct ids, the final store entry of the year at position k
is exactly the map of the clean per-year recursion. -/
theorem calculateAll_getY (ctx : Ctx)
    (hsort : jsSortYears ctx.yearSettings = ctx.yearSettings)
    (hnodup : (ctx.yearSettings.map YearSetting.id).Nodup)
    (k : Nat) (hk : k < ctx.yearSettings.length) :
    Store.getY (calculateAll ctx) (ysIdAt ctx k) = yrMap ctx k := by
  rw [calculateAll, hsort, yrMap]
  exact runYears_spec ctx hsort hnodup ctx.yearSettings 0 none _
    (by rw [List.drop_zero]) (by simp)
    (fun j hj _ => absurd hj (Nat.not_lt_zero j))
    (fun _ => by rw [initStore_getY]; rfl)
    (fun j _ _ => initStore_getY _ _)
    k hk

/-! ## Lookup lemmas over the per-year map -/

/-- The previous-year map argument of the year at position k. -/
def prevMapOf (ctx : Ctx) : Nat → Option RMap
  | 0 => none
  | k + 1 => some (yearOut ctx k).1

theorem yearOut_eq (ctx : Ctx) (k : Nat) :
    yearOut ctx k = computeYear ctx k (prevMapOf ctx k) (ysIdAt ctx k) (yearPending ctx k) := by
  cases k with
  | zero => rfl
  | succ k2 => rfl

/-- A concatenation whose left part disagrees with the head of the
target differs from the target. -/
theorem append_ne_of_take (p s k : String) (h : k.data.take p.data.length ≠ p.data) :
    p ++ s ≠ k := by
  intro he
  apply h
  rw [← he, String.data_append, List.take_left]

/-- A concatenation whose right part disagrees with the tail of the
target differs from the target. -/
theorem append_ne_of_take_rev (s p k : String)
    (h : k.data.reverse.take p.data.length ≠ p.data.reverse) : s ++ p ≠ k := by
  intro he
  apply h
  rw [← he, String.data_append, List.reverse_append]
  rw [show p.data.length = p.data.reverse.length from (List.length_reverse p.data).symm]
  exact List.take_left _ _

theorem deltaKey_ne (s k : String) (h : k.data.take 3 ≠ ("Î” ").data) : deltaKey s ≠ k := by
  have : ("Î” ").data.length = 3 := by decide
  rw [deltaKey]
  apply append_ne_of_take
  rw [this]
  exact h

/-- The triple falsy-or chain over one and the same value collapses to
the value. -/
theorem jsOrOpt_triple_same (c : ℚ) :
    jsOrOpt (some c) (jsOrOpt (some c) (jsOrOpt (some c) 0)) = c := by
  by_cases hc : c = 0 <;> simp [jsOrOpt, hc]

/-- The cash flow entries written after the delta scan, read back from
the final map of a year. -/
theorem computeYear_cash_lookups (ctx : Ctx) (i : Nat) (prev : Option RMap) (yid : Nat)
    (m0 : RMap) :
    RMap.find? (computeYear ctx i prev yid m0).1 "Net Cash from Operating Activities" =
      some (computeYear ctx i prev yid m0).2.2.2.cashFromOperating ∧
    RMap.find? (computeYear ctx i prev yid m0).1 "Net Cash from Investment Activities" =
      some (computeYear ctx i prev yid m0).2.2.2.cashFromInvesting ∧
    RMap.find? (computeYear ctx i prev yid m0).1 "Net Cash from Financing Activities" =
      some (computeYear ctx i prev yid m0).2.2.2.cashFromFinancing ∧
    RMap.find? (computeYear ctx i prev yid m0).1 "Net Cash Flow During the Year" =
      some (computeYear ctx i prev yid m0).2.2.2.netCashFlow ∧
    RMap.find? (computeYear ctx i prev yid m0).1 "Add: Opening Cash Balance" =
      some (computeYear ctx i prev yid m0).2.2.2.openingCash ∧
    RMap.find? (computeYear ctx i prev yid m0).1 "Closing Cash Balance (as per CFS)" =
      some (computeYear ctx i prev yid m0).2.2.2.closingCashCFS ∧
    RMap.find? (computeYear ctx i prev yid m0).1 "Cash & Bank Balance" =
      some (computeYear ctx i prev yid m0).2.2.2.closingCashCFS ∧
    RMap.find? (computeYear ctx i prev yid m0).1 "Cash in Hand" =
      some (computeYear ctx i prev yid m0).2.2.2.closingCashCFS ∧
    RMap.find? (computeYear ctx i prev yid m0).1 "Total Cash & Bank" =
      some (computeYear ctx i prev yid m0).2.2.2.closingCashCFS ∧
    RMap.find? (computeYear ctx i prev yid m0).1 "Total Operating Current Assets" =
      some (computeYear ctx i prev yid m0).2.2.1.nonCashCurrentAssets ∧
    RMap.find? (computeYear ctx i prev yid m0).1 "Total Non-Current Assets" =
      some (computeYear ctx i prev yid m0).2.2.2.nonCurrentAssets ∧
    RMap.find? (computeYear ctx i prev yid m0).1 "Total Assets" =
      some (computeYear ctx i prev yid m0).2.2.2.totalAssets := by
  refine ⟨?_, ?_, ?_, ?_, ?_, ?_, ?_, ?_, ?_, ?_, ?_, ?_⟩ <;>
    simp +decide only [computeYear, phaseC, RMap.find?_set, if_true, if_false]

/-- The ratio entries written at the end of the year, read back from
the final map. -/
theorem computeYear_ratio_lookups (ctx : Ctx) (i : Nat) (prev : Option RMap) (yid : Nat)
    (m0 : RMap) :
    RMap.find? (computeYear ctx i prev yid m0).1 "Current ratio" =
      some (computeYear ctx i prev yid m0).2.2.2.currentRat ∧
    RMap.find? (computeYear ctx i prev yid m0).1 "Quick ratio" =
      some (computeYear ctx i prev yid m0).2.2.2.quickRat ∧
    RMap.find? (computeYear ctx i prev yid m0).1 "Fixed Assets Coverage Ratio" =
      some (computeYear ctx i prev yid m0).2.2.2.fixedAssetsCoverage ∧
    RMap.find? (computeYear ctx i prev yid m0).1 "Interest coverage ratio" =
      some (computeYear ctx i prev yid m0).2.2.2.interestCoverage ∧
    RMap.find? (computeYear ctx i prev yid m0).1 "Debt Service Coverage Ratio (DSCR)" =
      some (computeYear ctx i prev yid m0).2.2.2.dscr ∧
    RMap.find? (computeYear ctx i prev yid m0).1 "Return on Capital Employed (ROCE)" =
      some (computeYear ctx i prev yid m0).2.2.2.roce ∧
    RMap.find? (computeYear ctx i prev yid m0).1 "Net profit margin" =
      some (computeYear ctx i prev yid m0).2.2.2.netProfitMargin ∧
    RMap.find? (computeYear ctx i prev yid m0).1 "Return on Net worth" =
      some (computeYear ctx i prev yid m0).2.2.2.returnOnNetWorth ∧
    RMap.find? (computeYear ctx i prev yid m0).1 "Inventory turnover ratio" =
      some (computeYear ctx i prev yid m0).2.2.2.inventoryTurnover ∧
    RMap.find? (computeYear ctx i prev yid m0).1 "Fixed asset turnover ratio" =
      some (computeYear ctx i prev yid m0).2.2.2.fixedAssetTurnover ∧
    RMap.find? (computeYear ctx i prev yid m0).1 "Asset turnover ratio" =
      some (computeYear ctx i prev yid m0).2.2.2.assetTurnover := by
  refine ⟨?_, ?_, ?_, ?_, ?_, ?_, ?_, ?_, ?_, ?_, ?_⟩ <;>
    simp +decide only [computeYear, phaseC, RMap.find?_set, if_true, if_false]

/-- The net cash flow is definitionally the sum of the three section
totals. -/
theorem computeYear_netCashFlow_eq (ctx : Ctx) (i : Nat) (prev : Option RMap) (yid : Nat)
    (m0 : RMap) :
    (computeYear ctx i prev yid m0).2.2.2.netCashFlow =
      (computeYear ctx i prev yid m0).2.2.2.cashFromOperating +
        (computeYear ctx i prev yid m0).2.2.2.cashFromInvesting +
        (computeYear ctx i prev yid m0).2.2.2.cashFromFinancing := rfl

/-- The closing cash is definitionally the opening cash plus the net
cash flow. -/
theorem computeYear_closingCash_eq (ctx : Ctx) (i : Nat) (prev : Option RMap) (yid : Nat)
    (m0 : RMap) :
    (computeYear ctx i prev yid m0).2.2.2.closingCashCFS =
      (computeYear ctx i prev yid m0).2.2.2.openingCash +
        (computeYear ctx i prev yid m0).2.2.2.netCashFlow := rfl

/-- Total assets are definitionally the CFS closing cash plus the
non-cash current assets, the fixed assets and the non-current assets. -/
theorem computeYear_totalAssets_eq (ctx : Ctx) (i : Nat) (prev : Option RMap) (yid : Nat)
    (m0 : RMap) :
    (computeYear ctx i prev yid m0).2.2.2.totalAssets =
      (computeYear ctx i prev yid m0).2.2.2.closingCashCFS +
        (computeYear ctx i prev yid m0).2.2.1.nonCashCurrentAssets +
        (computeYear ctx i prev yid m0).2.2.1.totalFixedAssets +
        (computeYear ctx i prev yid m0).2.2.2.nonCurrentAssets := rfl

/-- For a year after the first, the opening cash is the falsy-or chain
over the three closing cash entries of the previous map. -/
theorem computeYear_openingCash_succ (ctx : Ctx) (k2 : Nat) (pm : RMap) (yid : Nat)
    (m0 : RMap) :
    (computeYear ctx (k2 + 1) (some pm) yid m0).2.2.2.openingCash =
      jsOrOpt (RMap.find? pm "Closing Cash Balance (as per CFS)")
        (jsOrOpt (RMap.find? pm "Cash & Bank Balance")
          (jsOrOpt (RMap.find? pm "Total Cash & Bank") 0)) := rfl

/-! ## Claim C2 -/

/-- C2: for every year of a computation over sorted, distinct year
settings, Net Cash Flow During the Year equals the sum of the three
section totals as stored in the result map; the Closing Cash Balance
(as per CFS) equals the opening cash plus the net cash flow, where the
opening cash of every year after the first is the previous year closing
cash (year 0 reads the entered cash rows in the engine, definitionally
in computeYear); and this closing cash overwrites the balance sheet
cash and bank entries of the map and is exactly the cash component of
Total Assets. -/
theorem C2_net_cash_flow_and_authoritative_cash (ctx : Ctx)
    (hsort : jsSortYears ctx.yearSettings = ctx.yearSettings)
    (hnodup : (ctx.yearSettings.map YearSetting.id).Nodup)
    (k : Nat) (hk : k < ctx.yearSettings.length) :
    RMap.find? (Store.getY (calculateAll ctx) (ysIdAt ctx k)) "Net Cash Flow During the Year" =
      some (yrCF ctx k).netCashFlow ∧
    (yrCF ctx k).netCashFlow = (yrCF ctx k).cashFromOperating +
      (yrCF ctx k).cashFromInvesting + (yrCF ctx k).cashFromFinancing ∧
    RMap.find? (Store.getY (calculateAll ctx) (ysIdAt ctx k)) "Net Cash from Operating Activities" =
      some (yrCF ctx k).cashFromOperating ∧
    RMap.find? (Store.getY (calculateAll ctx) (ysIdAt ctx k)) "Net Cash from Investment Activities" =
      some (yrCF ctx k).cashFromInvesting ∧
    RMap.find? (Store.getY (calculateAll ctx) (ysIdAt ctx k)) "Net Cash from Financing Activities" =
      some (yrCF ctx k).cashFromFinancing ∧
    (yrCF ctx k).closingCashCFS = (yrCF ctx k).openingCash + (yrCF ctx k).netCashFlow ∧
    (∀ k2, k = k2 + 1 → (yrCF ctx k).openingCash = (yrCF ctx k2).closingCashCFS) ∧
    RMap.find? (Store.getY (calculateAll ctx) (ysIdAt ctx k)) "Closing Cash Balance (as per CFS)" =
      some (yrCF ctx k).closingCashCFS ∧
    RMap.find? (Store.getY (calculateAll ctx) (ysIdAt ctx k)) "Cash & Bank Balance" =
      some (yrCF ctx k).closingCashCFS ∧
    RMap.find? (Store.getY (calculateAll ctx) (ysIdAt ctx k)) "Cash in Hand" =
      some (yrCF ctx k).closingCashCFS ∧
    RMap.find? (Store.getY (calculateAll ctx) (ysIdAt ctx k)) "Total Cash & Bank" =
      some (yrCF ctx k).closingCashCFS ∧
    (yrCF ctx k).totalAssets = (yrCF ctx k).closingCashCFS +
      (yrBS ctx k).nonCashCurrentAssets + (yrBS ctx k).totalFixedAssets +
      (yrCF ctx k).nonCurrentAssets ∧
    RMap.find? (Store.getY (calculateAll ctx) (ysIdAt ctx k)) "Total Assets" =
      some (yrCF ctx k).totalAssets := by
  have hm : Store.getY (calculateAll ctx) (ysIdAt ctx k) =
      (computeYear ctx k (prevMapOf ctx k) (ysIdAt ctx k) (yearPending ctx k)).1 := by
    rw [calculateAll_getY ctx hsort hnodup k hk, yrMap, yearOut_eq]
  have hcf : yrCF ctx k =
      (computeYear ctx k (prevMapOf ctx k) (ysIdAt ctx k) (yearPending ctx k)).2.2.2 := by
    rw [yrCF, yearOut_eq]
  have hbs : yrBS ctx k =
      (computeYear ctx k (prevMapOf ctx k) (ysIdAt ctx k) (yearPending ctx k)).2.2.1 := by
    rw [yrBS, yearOut_eq]
  obtain ⟨l1, l2, l3, l4, l5, l6, l7, l8, l9, l10, l11, l12⟩ :=
    computeYear_cash_lookups ctx k (prevMapOf ctx k) (ysIdAt ctx k) (yearPending ctx k)
  refine ⟨?_, ?_, ?_, ?_, ?_, ?_, ?_, ?_, ?_, ?_, ?_, ?_, ?_⟩
  · rw [hm, hcf]; exact l4
  · rw [hcf]; exact computeYear_netCashFlow_eq ctx k _ _ _
  · rw [hm, hcf]; exact l1
  · rw [hm, hcf]; exact l2
  · rw [hm, hcf]; exact l3
  · rw [hcf]; exact computeYear_closingCash_eq ctx k _ _ _
  · intro k2 hk2
    subst hk2
    have hprev : prevMapOf ctx (k2 + 1) = some (yearOut ctx k2).1 := rfl
    rw [yrCF, yearOut_eq, hprev, computeYear_openingCash_succ]
    obtain ⟨_, _, _, _, _, p6, p7, _, p9, _, _, _⟩ :=
      computeYear_cash_lookups ctx k2 (prevMapOf ctx k2) (ysIdAt ctx k2) (yearPending ctx k2)
    have hself : (yearOut ctx k2).1 =
        (computeYear ctx k2 (prevMapOf ctx k2) (ysIdAt ctx k2) (yearPending ctx k2)).1 := by
      rw [yearOut_eq]
    rw [hself, p6, p7, p9, jsOrOpt_triple_same, yrCF, yearOut_eq]
  · rw [hm, hcf]; exact l6
  · rw [hm, hcf]; exact l7
  · rw [hm, hcf]; exact l8
  · rw [hm, hcf]; exact l9
  · rw [hcf, hbs]; exact computeYear_totalAssets_eq ctx k _ _ _
  · rw [hm, hcf]; exact l12

/-! ## Preservation of keys across the symbolic-key writers -/

theorem wcLimitFold_find (loans : List WCLoan) (st : ℚ × RMap) (key : String)
    (h : key.data.reverse.take (" WC Limit").data.length ≠ (" WC Limit").data.reverse) :
    RMap.find? (loans.foldl wcLimitStep st).2 key = RMap.find? st.2 key := by
  induction loans generalizing st with
  | nil => rfl
  | cons loan t ih =>
    rw [List.foldl_cons, ih]
    simp only [wcLimitStep, RMap.find?_set]
    rw [if_neg (append_ne_of_take_rev _ _ _ h)]

theorem wcInterestFold_find (loans : List WCLoan) (st : ℚ × RMap) (key : String)
    (h : key.data.reverse.take (" WC").data.length ≠ (" WC").data.reverse) :
    RMap.find? (loans.foldl wcInterestStep st).2 key = RMap.find? st.2 key := by
  induction loans generalizing st with
  | nil => rfl
  | cons loan t ih =>
    rw [List.foldl_cons, ih]
    simp only [wcInterestStep, RMap.find?_set]
    rw [if_neg (append_ne_of_take_rev _ _ _ h)]

theorem wcInterestCalc_find (wc : WCSettings) (exLoans : List WCLoan) (m : RMap) (key : String)
    (h1 : key.data.reverse.take (" WC").data.length ≠ (" WC").data.reverse)
    (h2 : key ≠ "Interest on Existing Working Capital")
    (h3 : key ≠ "Interest on Proposed Working Capital") :
    RMap.find? (wcInterestCalc wc exLoans m).2.2 key = RMap.find? m key := by
  unfold wcInterestCalc
  dsimp only
  rw [RMap.find?_set, if_neg (fun hx => h3 hx.symm)]
  split_ifs with hl he
  · exact wcInterestFold_find exLoans (0, m) key h1
  · simp only [RMap.find?_set]
    rw [if_neg (fun hx => h2 hx.symm)]
  · rfl

theorem loanInterestWrites_cons (s : LoanSummary) (t : List LoanSummary) (yid : Nat) (m : RMap) :
    loanInterestWrites (s :: t) yid m =
      loanInterestWrites t yid
        (if s.year_id == yid then
          m.set ("Interest on " ++ loanNameOf s) s.annual_interest
        else m) := rfl

theorem loanInterestWrites_find (ls : List LoanSummary) (yid : Nat) (m : RMap) (key : String)
    (h : key.data.take ("Interest on ").data.length ≠ ("Interest on ").data) :
    RMap.find? (loanInterestWrites ls yid m) key = RMap.find? m key := by
  induction ls generalizing m with
  | nil => rfl
  | cons s t ih =>
    rw [loanInterestWrites_cons, ih]
    by_cases hy : (s.year_id == yid) = true
    · rw [if_pos hy]
      simp only [RMap.find?_set]
      rw [if_neg (append_ne_of_take _ _ _ h)]
    · rw [if_neg hy]

theorem loanClosingWrites_cons (s : LoanSummary) (t : List LoanSummary) (yid : Nat) (m : RMap) :
    loanClosingWrites (s :: t) yid m =
      loanClosingWrites t yid
        (if s.year_id == yid then
          m.set (loanNameOf s ++ " (Closing Balance)") s.closing_balance
        else m) := rfl

theorem loanClosingWrites_find (ls : List LoanSummary) (yid : Nat) (m : RMap) (key : String)
    (h : key.data.reverse.take (" (Closing Balance)").data.length ≠
      (" (Closing Balance)").data.reverse) :
    RMap.find? (loanClosingWrites ls yid m) key = RMap.find? m key := by
  induction ls generalizing m with
  | nil => rfl
  | cons s t ih =>
    rw [loanClosingWrites_cons, ih]
    by_cases hy : (s.year_id == yid) = true
    · rw [if_pos hy]
      simp only [RMap.find?_set]
      rw [if_neg (append_ne_of_take_rev _ _ _ h)]
    · rw [if_neg hy]

/-- The fixed-asset loop never writes a key that passes neither of its
two name tests. -/
theorem fixedRowsFold_find (rows : List Row) (gb nb : ℚ) (m : RMap) (key : String)
    (h1 : jsIncludes (jsTrim (jsLower key)) "gross block" = false)
    (h2 : jsTrim (jsLower key) ≠ "net block") :
    RMap.find? (rows.foldl (fixedRowStep gb nb) m) key = RMap.find? m key := by
  induction rows generalizing m with
  | nil => rfl
  | cons r t ih =>
    rw [List.foldl_cons, ih]
    unfold fixedRowStep
    dsimp only
    split_ifs with hg hn
    · simp only [RMap.find?_set]
      rw [if_neg (fun hx => by rw [hx] at hg; rw [h1] at hg; exact Bool.false_ne_true hg)]
    · simp only [RMap.find?_set]
      rw [if_neg (fun hx => h2 (by rw [← hx]; exact hn))]
    · rfl

theorem fixedAssetLoopWrites_find (groups : List Group) (gb nb : ℚ) (m : RMap) (key : String)
    (h1 : jsIncludes (jsTrim (jsLower key)) "gross block" = false)
    (h2 : jsTrim (jsLower key) ≠ "net block") :
    RMap.find? (fixedAssetLoopWrites groups gb nb m) key = RMap.find? m key := by
  unfold fixedAssetLoopWrites
  cases groups.find? (fun g =>
      jsIncludes (jsLower g.name) "fixed" || g.system_tag == some "fixed_assets") with
  | none => rfl
  | some g => exact fixedRowsFold_find g.rows gb nb m key h1 h2

/-- The gross block entry survives the fixed-asset loop with the same
value (a matching row is rewritten to the very same gross block). -/
theorem fixedRowsFold_find_gross (rows : List Row) (gb nb : ℚ) (m : RMap)
    (hm : RMap.find? m "Gross block" = some gb) :
    RMap.find? (rows.foldl (fixedRowStep gb nb) m) "Gross block" = some gb := by
  induction rows generalizing m with
  | nil => exact hm
  | cons r t ih =>
    rw [List.foldl_cons]
    apply ih
    unfold fixedRowStep
    dsimp only
    split_ifs with hg hn
    · simp only [RMap.find?_set]
      split_ifs with hx
      · rfl
      · exact hm
    · simp only [RMap.find?_set]
      rw [if_neg (fun hx => by rw [hx] at hn; exact absurd hn (by decide))]
      exact hm
    · exact hm

theorem fixedAssetLoopWrites_find_gross (groups : List Group) (gb nb : ℚ) (m : RMap)
    (hm : RMap.find? m "Gross block" = some gb) :
    RMap.find? (fixedAssetLoopWrites groups gb nb m) "Gross block" = some gb := by
  unfold fixedAssetLoopWrites
  cases groups.find? (fun g =>
      jsIncludes (jsLower g.name) "fixed" || g.system_tag == some "fixed_assets") with
  | none => exact hm
  | some g => exact fixedRowsFold_find_gross g.rows gb nb m hm

/-- The net block entry survives the fixed-asset loop with the same
value. -/
theorem fixedRowsFold_find_net (rows : List Row) (gb nb : ℚ) (m : RMap)
    (hm : RMap.find? m "Net block" = some nb) :
    RMap.find? (rows.foldl (fixedRowStep gb nb) m) "Net block" = some nb := by
  induction rows generalizing m with
  | nil => exact hm
  | cons r t ih =>
    rw [List.foldl_cons]
    apply ih
    unfold fixedRowStep
    dsimp only
    split_ifs with hg hn
    · simp only [RMap.find?_set]
      rw [if_neg (fun hx => by rw [hx] at hg; exact absurd hg (by decide))]
      exact hm
    · simp only [RMap.find?_set]
      split_ifs with hx
      · rfl
      · exact hm
    · exact hm

theorem fixedAssetLoopWrites_find_net (groups : List Group) (gb nb : ℚ) (m : RMap)
    (hm : RMap.find? m "Net block" = some nb) :
    RMap.find? (fixedAssetLoopWrites groups gb nb m) "Net block" = some nb := by
  unfold fixedAssetLoopWrites
  cases groups.find? (fun g =>
      jsIncludes (jsLower g.name) "fixed" || g.system_tag == some "fixed_assets") with
  | none => exact hm
  | some g => exact fixedRowsFold_find_net g.rows gb nb m hm

/-- One scan step does not disturb a key that is neither the row name
nor a delta display key. -/
theorem scanStep_find (isLlp : Bool) (taxTotal : ℚ) (prev : Option RMap) (yid : Nat)
    (nature bucket : String) (st : ScanOut) (r : Row) (key : String)
    (hname : r.name ≠ key) (hdk : key.data.take 3 ≠ ("Î” ").data) :
    RMap.find? (scanStep isLlp taxTotal prev yid nature bucket st r).m key =
      RMap.find? st.m key := by
  have h1 : ∀ (m2 : RMap) (v : ℚ), RMap.find? (RMap.set m2 r.name v) key = RMap.find? m2 key := by
    intro m2 v
    simp only [RMap.find?_set]
    rw [if_neg hname]
  have h2 : ∀ (m2 : RMap) (v : ℚ),
      RMap.find? (RMap.set m2 (deltaKey r.name) v) key = RMap.find? m2 key := by
    intro m2 v
    simp only [RMap.find?_set]
    rw [if_neg (deltaKey_ne r.name key hdk)]
  unfold scanStep
  dsimp only
  split_ifs <;> simp only [h1, h2]

/-- The row loop of one scanned group preserves such keys. -/
theorem scanRowsFold_find (isLlp : Bool) (taxTotal : ℚ) (prev : Option RMap) (yid : Nat)
    (nature bucket : String) (rows : List Row) (st : ScanOut) (key : String)
    (hnames : ∀ r ∈ rows, r.name ≠ key) (hdk : key.data.take 3 ≠ ("Î” ").data) :
    RMap.find? (rows.foldl (scanStep isLlp taxTotal prev yid nature bucket) st).m key =
      RMap.find? st.m key := by
  induction rows generalizing st with
  | nil => rfl
  | cons r t ih =>
    rw [List.foldl_cons, ih _ (fun r2 h2 => hnames r2 (List.mem_cons_of_mem r h2))]
    exact scanStep_find isLlp taxTotal prev yid nature bucket st r key
      (hnames r (List.mem_cons_self r t)) hdk

theorem scanGroupStep_find (isLlp : Bool) (taxTotal : ℚ) (prev : Option RMap) (yid : Nat)
    (st : ScanOut) (g : Group) (key : String)
    (hnames : ∀ r ∈ g.rows, r.name ≠ key) (hdk : key.data.take 3 ≠ ("Î” ").data) :
    RMap.find? (scanGroupStep isLlp taxTotal prev yid st g).m key = RMap.find? st.m key := by
  unfold scanGroupStep
  split_ifs <;> first
    | rfl
    | exact scanRowsFold_find isLlp taxTotal prev yid _ _ g.rows st key hnames hdk

/-- The whole delta scan preserves a key that no row carries as its name
and that does not look like a delta display key. -/
theorem scanGroups_find (groups : List Group) (isLlp : Bool) (taxTotal : ℚ)
    (prev : Option RMap) (yid : Nat) (m : RMap) (key : String)
    (hnames : ∀ g ∈ groups, ∀ r ∈ g.rows, r.name ≠ key)
    (hdk : key.data.take 3 ≠ ("Î” ").data) :
    RMap.find? (scanGroups groups isLlp taxTotal prev yid m).m key = RMap.find? m key := by
  rw [scanGroups]
  have hgen : ∀ (l : List Group) (st : ScanOut), (∀ g ∈ l, ∀ r ∈ g.rows, r.name ≠ key) →
      RMap.find? (l.foldl (scanGroupStep isLlp taxTotal prev yid) st).m key =
        RMap.find? st.m key := by
    intro l
    induction l with
    | nil => intro st _; rfl
    | cons g t ih =>
      intro st hl
      rw [List.foldl_cons, ih _ (fun g2 h2 => hl g2 (List.mem_cons_of_mem g h2))]
      exact scanGroupStep_find isLlp taxTotal prev yid st g key
        (hl g (List.mem_cons_self g t)) hdk
  exact hgen groups { m := m } hnames

set_option maxHeartbeats 1000000 in
/-- One COGS categorization step does not disturb a key other than the
row name and the canonical opening stock label. -/
theorem cogsStep_find (i : Nat) (prevO : Option RMap) (yid : Nat) (st : CogsAcc × RMap)
    (r : Row) (key : String) (hname : r.name ≠ key)
    (hkey : key ≠ "Opening Stock (Raw Materials)") :
    RMap.find? (cogsStep i prevO yid st r).2 key = RMap.find? st.2 key := by
  have h1 : ∀ (m2 : RMap) (v : ℚ), RMap.find? (RMap.set m2 r.name v) key = RMap.find? m2 key := by
    intro m2 v
    simp only [RMap.find?_set]
    rw [if_neg hname]
  have h2 : ∀ (m2 : RMap) (v : ℚ),
      RMap.find? (RMap.set m2 "Opening Stock (Raw Materials)" v) key = RMap.find? m2 key := by
    intro m2 v
    simp only [RMap.find?_set]
    rw [if_neg (fun hx => hkey hx.symm)]
  unfold cogsStep
  dsimp only
  split_ifs <;> simp only [h1, h2]

theorem cogsScan_find (rows : List Row) (i : Nat) (prevO : Option RMap) (yid : Nat)
    (m : RMap) (key : String) (hnames : ∀ r ∈ rows, r.name ≠ key)
    (hkey : key ≠ "Opening Stock (Raw Materials)") :
    RMap.find? (cogsScan rows i prevO yid m).2 key = RMap.find? m key := by
  rw [cogsScan]
  have hgen : ∀ (l : List Row) (st : CogsAcc × RMap), (∀ r ∈ l, r.name ≠ key) →
      RMap.find? (l.foldl (cogsStep i prevO yid) st).2 key = RMap.find? st.2 key := by
    intro l
    induction l with
    | nil => intro st _; rfl
    | cons r t ih =>
      intro st hl
      rw [List.foldl_cons, ih _ (fun r2 h2 => hl r2 (List.mem_cons_of_mem r h2))]
      exact cogsStep_find i prevO yid st r key (hl r (List.mem_cons_self r t)) hkey
  exact hgen rows ({}, m) hnames

/-- The Target-GPR block writes only its three labels. -/
theorem gprAdjust_find (gpr : Option GPRSettings) (ys : List YearSetting) (i : Nat)
    (rev : ℚ) (prev : Option RMap) (st : CogsAcc × RMap) (key : String)
    (h1 : key ≠ "_actual_gpr") (h2 : key ≠ "Closing Stock (Raw Materials)")
    (h3 : key ≠ "Closing Stock") :
    RMap.find? (gprAdjust gpr ys i rev prev st).2.1 key = RMap.find? st.2 key := by
  have ha : ∀ (m2 : RMap) (v : ℚ),
      RMap.find? (RMap.set m2 "_actual_gpr" v) key = RMap.find? m2 key := by
    intro m2 v
    simp only [RMap.find?_set]
    rw [if_neg (fun hx => h1 hx.symm)]
  have hb : ∀ (m2 : RMap) (v : ℚ),
      RMap.find? (RMap.set m2 "Closing Stock (Raw Materials)" v) key = RMap.find? m2 key := by
    intro m2 v
    simp only [RMap.find?_set]
    rw [if_neg (fun hx => h2 hx.symm)]
  have hc : ∀ (m2 : RMap) (v : ℚ),
      RMap.find? (RMap.set m2 "Closing Stock" v) key = RMap.find? m2 key := by
    intro m2 v
    simp only [RMap.find?_set]
    rw [if_neg (fun hx => h3 hx.symm)]
  unfold gprAdjust
  cases gpr with
  | none => rfl
  | some g =>
    dsimp only
    split_ifs <;> simp only [ha, hb, hc]

/-! ## Distribution of lookups over branches -/

theorem find?_ite (c : Prop) [Decidable c] (m1 m2 : RMap) (k : String) :
    RMap.find? (if c then m1 else m2) k = if c then RMap.find? m1 k else RMap.find? m2 k := by
  split_ifs <;> rfl

theorem fst_ite {α β : Type} (c : Prop) [Decidable c] (a b : α × β) :
    (if c then a else b).1 = if c then a.1 else b.1 := by
  split_ifs <;> rfl

theorem snd_ite {α β : Type} (c : Prop) [Decidable c] (a b : α × β) :
    (if c then a else b).2 = if c then a.2 else b.2 := by
  split_ifs <;> rfl

/-- The balance sheet keeps the closing raw-material stock it wrote:
the canonical closing stock label of the final year map holds the
closing stock of the operating statement, provided no input row uses
the label as its display name. -/
theorem computeYear_find_closeRM (ctx : Ctx) (i : Nat) (prev : Option RMap) (yid : Nat)
    (m0 : RMap)
    (hnames : ∀ g ∈ ctx.allGroups, ∀ r ∈ g.rows, r.name ≠ "Closing Stock (Raw Materials)") :
    RMap.find? (computeYear ctx i prev yid m0).1 "Closing Stock (Raw Materials)" =
      some (computeYear ctx i prev yid m0).2.1.closeStockRM := by
  have hscan : ∀ (b : Bool) (tt : ℚ) (pv : Option RMap) (yy : Nat) (mm : RMap),
      RMap.find? (scanGroups ctx.allGroups b tt pv yy mm).m "Closing Stock (Raw Materials)" =
        RMap.find? mm "Closing Stock (Raw Materials)" :=
    fun b tt pv yy mm => scanGroups_find ctx.allGroups b tt pv yy mm _ hnames (by decide)
  simp +decide only [computeYear, phaseB, phaseC, RMap.find?_set, if_true, if_false,
    hscan, find?_ite, fst_ite, snd_ite, ite_self, fixedAssetLoopWrites_find,
    wcLimitFold_find, loanClosingWrites_find]

/-- The dedicated internal net-block carry key of the final year map
holds the net block of the year, provided no input row uses the key as
its display name. -/
theorem computeYear_find_carry (ctx : Ctx) (i : Nat) (prev : Option RMap) (yid : Nat)
    (m0 : RMap)
    (hnames : ∀ g ∈ ctx.allGroups, ∀ r ∈ g.rows, r.name ≠ "_net_block_carry") :
    RMap.find? (computeYear ctx i prev yid m0).1 "_net_block_carry" =
      some (computeYear ctx i prev yid m0).2.2.1.netBlock := by
  have hscan : ∀ (b : Bool) (tt : ℚ) (pv : Option RMap) (yy : Nat) (mm : RMap),
      RMap.find? (scanGroups ctx.allGroups b tt pv yy mm).m "_net_block_carry" =
        RMap.find? mm "_net_block_carry" :=
    fun b tt pv yy mm => scanGroups_find ctx.allGroups b tt pv yy mm _ hnames (by decide)
  simp +decide only [computeYear, phaseB, phaseC, RMap.find?_set, if_true, if_false,
    hscan, find?_ite, fst_ite, snd_ite, ite_self, fixedAssetLoopWrites_find,
    wcLimitFold_find, loanClosingWrites_find]

set_option maxRecDepth 100000 in
set_option maxHeartbeats 1000000 in
/-- The forced opening stock key of the seeded map survives the whole
year untouched, provided no input row uses it as its display name. -/
theorem computeYear_find_forced (ctx : Ctx) (i : Nat) (prev : Option RMap) (yid : Nat)
    (m0 : RMap)
    (hnames : ∀ g ∈ ctx.allGroups, ∀ r ∈ g.rows, r.name ≠ "_forced_opening_stock_rm") :
    RMap.find? (computeYear ctx i prev yid m0).1 "_forced_opening_stock_rm" =
      RMap.find? m0 "_forced_opening_stock_rm" := by
  have hscan : ∀ (b : Bool) (tt : ℚ) (pv : Option RMap) (yy : Nat) (mm : RMap),
      RMap.find? (scanGroups ctx.allGroups b tt pv yy mm).m "_forced_opening_stock_rm" =
        RMap.find? mm "_forced_opening_stock_rm" :=
    fun b tt pv yy mm => scanGroups_find ctx.allGroups b tt pv yy mm _ hnames (by decide)
  have hcogs : ∀ (rows : List Row) (pv : Option RMap) (yy : Nat) (mm : RMap),
      (∀ r ∈ rows, r.name ≠ "_forced_opening_stock_rm") →
      RMap.find? (cogsScan rows i pv yy mm).2 "_forced_opening_stock_rm" =
        RMap.find? mm "_forced_opening_stock_rm" :=
    fun rows pv yy mm h => cogsScan_find rows i pv yy mm _ h (by decide)
  have hcogs2 : ∀ (pv : Option RMap) (yy : Nat) (mm : RMap),
      RMap.find? (cogsScan (cogsRowsOf ctx.allGroups) i pv yy mm).2 "_forced_opening_stock_rm" =
        RMap.find? mm "_forced_opening_stock_rm" := by
    intro pv yy mm
    apply hcogs
    intro r hr
    rw [cogsRowsOf] at hr
    cases hfind : ctx.allGroups.find? (fun g =>
        jsIncludes (jsLower g.name) "cost of goods sold" || jsIncludes (jsLower g.name) "cogs") with
    | none => rw [hfind] at hr; exact absurd hr (List.not_mem_nil r)
    | some g =>
      rw [hfind] at hr
      exact hnames g (List.mem_of_find?_eq_some hfind) r hr
  have hgpr : ∀ (rev : ℚ) (pv : Option RMap) (st : CogsAcc × RMap),
      RMap.find? (gprAdjust ctx.gprSettings ctx.yearSettings i rev pv st).2.1
          "_forced_opening_stock_rm" = RMap.find? st.2 "_forced_opening_stock_rm" :=
    fun rev pv st => gprAdjust_find _ _ _ _ _ _ _ (by decide) (by decide) (by decide)
  simp +decide only [computeYear, phaseP, phaseB, phaseC, RMap.find?_set, if_true, if_false,
    hscan, hcogs2, hgpr, find?_ite, fst_ite, snd_ite, ite_self, fixedAssetLoopWrites_find,
    wcLimitFold_find, loanClosingWrites_find, loanInterestWrites_find, wcInterestCalc_find]

/-! ## Concrete two-year inputs for counterexamples and witnesses -/

/-- A one-row revenue group over two years. -/
def wRevGroup : Group :=
  { name := "Revenue", page_type := "operating",
    rows := [{ name := "Sales", data := [⟨1, 100⟩, ⟨2, 200⟩] }] }

/-- A COGS group whose first-year closing stock input is 0 (the falsy
edge of the carry-forward). -/
def wCogsGroup : Group :=
  { name := "Cost of Goods Sold", page_type := "operating",
    rows := [
      { name := "Opening Stock (Raw Material)", data := [⟨1, 10⟩, ⟨2, 50⟩] },
      { name := "Closing Stock of Raw Material", data := [⟨1, 0⟩, ⟨2, 7⟩] },
      { name := "Wages", data := [⟨1, 5⟩, ⟨2, 6⟩] }] }

/-- Two sorted years with a zero first-year closing stock. -/
def wCtx : Ctx :=
  { allGroups := [wRevGroup, wCogsGroup],
    yearSettings := [⟨1, "2024-2025"⟩, ⟨2, "2025-2026"⟩],
    taxRegime := "domestic_22" }

/-- The same COGS group with a non-zero first-year closing stock. -/
def w2CogsGroup : Group :=
  { name := "Cost of Goods Sold", page_type := "operating",
    rows := [
      { name := "Opening Stock (Raw Material)", data := [⟨1, 10⟩, ⟨2, 50⟩] },
      { name := "Closing Stock of Raw Material", data := [⟨1, 8⟩, ⟨2, 7⟩] },
      { name := "Wages", data := [⟨1, 5⟩, ⟨2, 6⟩] }] }

/-- Two sorted years with a non-zero first-year closing stock. -/
def w2Ctx : Ctx :=
  { allGroups := [wRevGroup, w2CogsGroup],
    yearSettings := [⟨1, "2024-2025"⟩, ⟨2, "2025-2026"⟩],
    taxRegime := "domestic_22" }

/-- C1 counterexample: with a zero previous-year closing stock the
falsy-or carry-forward falls back to the user input of the later year:
year 2 uses opening stock 50 (the entered value), not the previous year
closing stock 0, so the entered value is not ignored. -/
theorem C1_counterexample :
    RMap.find? (Store.getY (calculateAll wCtx) 2) "Opening Stock (Raw Materials)" = some 50 ∧
    RMap.find? (Store.getY (calculateAll wCtx) 1) "Closing Stock (Raw Materials)" = some 0 ∧
    (50 : ℚ) ≠ 0 := by
  refine ⟨?_, ?_, by norm_num⟩ <;>
  norm_num +decide [calculateAll, runYears, computeYear, phaseP, phaseB, phaseC, wCtx,
    wRevGroup, wCogsGroup, jsSortYears, sSort, sInsert, getYearNum, firstFourDigits,
    digitsToNat, Store.getY, Store.setY, RMap.find?, RMap.set, RMap.get, RMap.has,
    totalRevenueOf, cogsRowsOf, cogsScan, cogsStep, cogsOpeningVal, isOpeningRMName,
    gprAdjust, wcInterestCalc, wcInterestStep, wcOf, loanInterestWrites, loanAgg,
    loanNameOf, otherInterestSum, sumGroup, sumGroupRows, sumGroupRow, groupMatches,
    normAlnum, collapseWs, collapseWsAux, getVal, getValGroups, getValRows, getValRow,
    dpValue, rowEligible, jsLower, jsIncludes, infixAux, jsStartsWith, jsTrim, isWs,
    isAlnumLower, jsOrOpt, jsOrQ, jsOrStr, jsTruthyOpt, assetAdditionsOf,
    fixedAssetLoopWrites, fixedRowStep, wcLimitStep, loanClosingWrites,
    sumAllGroupsByPageType, sumAllRow, calculateTax, scanGroups, scanGroupStep, scanStep,
    scanCurrVal, getRowCFBucket, groupBucketOf, deltaKey, aposS, partnersCapital,
    auditCalc, jsParseInt, beforeDash]

/-- C2 witness: the concrete two-year input satisfies the sortedness and
distinctness hypotheses, and the year-carry clause instantiates to year
1 reading the closing cash of year 0. -/
theorem C2_witness :
    jsSortYears wCtx.yearSettings = wCtx.yearSettings ∧
    (yrCF wCtx 1).openingCash = (yrCF wCtx 0).closingCashCFS :=
  ⟨rfl, (C2_net_cash_flow_and_authoritative_cash wCtx rfl (by decide) 1
    (by decide)).2.2.2.2.2.2.1 0 rfl⟩

/-! ## Claim C1: the raw-material opening stock carry-forward -/

/-- An eligible opening raw-material stock row. -/
def isOpeningRMRow (r : Row) : Bool :=
  rowEligible r && isOpeningRMName (jsLower r.name)

/-- Through the COGS loop of a year after the first, with no forced
opening stock in play and a non-zero previous-year closing stock, the
final opening-stock accumulator is that closing stock as soon as any
eligible opening row exists. -/
theorem cogsFold_openRM (i : Nat) (prev : Option RMap) (yid : Nat) (c : ℚ) (hc : c ≠ 0)
    (hprev : prev.bind (fun p => RMap.find? p "Closing Stock (Raw Materials)") = some c) :
    ∀ (rows : List Row) (st : CogsAcc × RMap),
      RMap.find? st.2 "_forced_opening_stock_rm" = none →
      (∀ r ∈ rows, r.name ≠ "_forced_opening_stock_rm") →
      (rows.foldl (cogsStep (i + 1) prev yid) st).1.openStockRM =
        if (rows.any isOpeningRMRow) = true then c else st.1.openStockRM := by
  intro rows
  induction rows with
  | nil =>
    intro st _ _
    simp [List.any_nil]
  | cons r t ih =>
    intro st hf hn
    have hnt : ∀ r2 ∈ t, r2.name ≠ "_forced_opening_stock_rm" :=
      fun r2 h2 => hn r2 (List.mem_cons_of_mem r h2)
    rw [List.foldl_cons, List.any_cons]
    by_cases he : rowEligible r = true
    · by_cases ho : isOpeningRMName (jsLower r.name) = true
      · have hval : cogsOpeningVal (i + 1) prev st.2 (dpValue r yid) = c := by
          simp only [cogsOpeningVal, hf, Option.isSome_none, Bool.false_eq_true, if_false]
          rw [if_pos (Nat.succ_pos i), hprev]
          simp [jsOrOpt, hc]
        have hstep : cogsStep (i + 1) prev yid st r =
            ({ st.1 with openStockRM := c },
              RMap.set (RMap.set st.2 r.name c) "Opening Stock (Raw Materials)" c) := by
          simp [cogsStep, he, ho, hval]
        rw [hstep]
        have h1 : r.name ≠ "_forced_opening_stock_rm" := hn r (List.mem_cons_self r t)
        have hf2 : RMap.find? (RMap.set (RMap.set st.2 r.name c)
            "Opening Stock (Raw Materials)" c) "_forced_opening_stock_rm" = none := by
          rw [RMap.find?_set, if_neg (by decide), RMap.find?_set, if_neg h1, hf]
        rw [ih _ hf2 hnt]
        have hor : isOpeningRMRow r = true := by simp [isOpeningRMRow, he, ho]
        simp [hor]
      · have ho2 : isOpeningRMName (jsLower r.name) = false := by
          simpa using ho
        have hstep : (cogsStep (i + 1) prev yid st r).1.openStockRM = st.1.openStockRM ∧
            (cogsStep (i + 1) prev yid st r).2 = st.2 := by
          constructor <;>
            (simp only [cogsStep, he, ho2, Bool.not_true, Bool.false_eq_true, if_false];
              split_ifs <;> rfl)
        rw [ih _ (by rw [hstep.2]; exact hf) hnt, hstep.1]
        have hor : isOpeningRMRow r = false := by simp [isOpeningRMRow, ho2]
        simp [hor]
    · have he2 : rowEligible r = false := by simpa using he
      have hstep : cogsStep (i + 1) prev yid st r = st := by
        simp [cogsStep, he2]
      rw [hstep, ih st hf hnt]
      have hor : isOpeningRMRow r = false := by simp [isOpeningRMRow, he2]
      simp [hor]

/-- Without the Target-GPR feature the engine never injects a forced
opening stock. -/
theorem computeYear_inject_gpr_none (ctx : Ctx) (hg : ctx.gprSettings = none)
    (i : Nat) (prev : Option RMap) (yid : Nat) (m0 : RMap) :
    (computeYear ctx i prev yid m0).2.1.inject = none := by
  have hrfl : (computeYear ctx i prev yid m0).2.1.inject =
      (gprAdjust ctx.gprSettings ctx.yearSettings i (totalRevenueOf ctx.allGroups yid) prev
        (cogsScan (cogsRowsOf ctx.allGroups) i prev yid
          (RMap.set (RMap.set m0 "Total Revenue" (totalRevenueOf ctx.allGroups yid))
            "Total Sales" (totalRevenueOf ctx.allGroups yid)))).2.2 := rfl
  rw [hrfl, hg]
  rfl

/-- Without the Target-GPR feature every pre-seeded map is empty. -/
theorem yearPending_gpr_none (ctx : Ctx) (hg : ctx.gprSettings = none) (k : Nat) :
    yearPending ctx k = [] := by
  cases k with
  | zero => rfl
  | succ k2 =>
    have hinj : (yearOut ctx k2).2.1.inject = none := by
      rw [yearOut_eq]
      exact computeYear_inject_gpr_none ctx hg _ _ _ _
    simp only [yearPending, hinj]

/-- A row-name condition over all groups restricts to the COGS rows. -/
theorem cogsRowsOf_names (groups : List Group) (key : String)
    (h : ∀ g ∈ groups, ∀ r ∈ g.rows, r.name ≠ key) :
    ∀ r ∈ cogsRowsOf groups, r.name ≠ key := by
  intro r hr
  rw [cogsRowsOf] at hr
  cases hfind : groups.find? (fun g =>
      jsIncludes (jsLower g.name) "cost of goods sold" ||
        jsIncludes (jsLower g.name) "cogs") with
  | none => rw [hfind] at hr; exact absurd hr (List.not_mem_nil r)
  | some g =>
    rw [hfind] at hr
    exact h g (List.mem_of_find?_eq_some hfind) r hr

/-- The opening-stock scalar of the operating statement is the
accumulator of the Target-GPR block over the COGS scan. -/
theorem phaseP_openStockRM_eq (ctx : Ctx) (i : Nat) (prev : Option RMap) (yid : Nat)
    (m0 : RMap) :
    (phaseP ctx i prev yid m0).2.openStockRM =
      ((gprAdjust ctx.gprSettings ctx.yearSettings i (totalRevenueOf ctx.allGroups yid) prev
        (cogsScan (cogsRowsOf ctx.allGroups) i prev yid
          (RMap.set (RMap.set m0 "Total Revenue" (totalRevenueOf ctx.allGroups yid))
            "Total Sales" (totalRevenueOf ctx.allGroups yid)))).1).openStockRM := rfl

/-- A disabled (absent) Target-GPR settings object leaves the COGS
accumulator untouched. -/
theorem gprAdjust_none_acc (ys : List YearSetting) (i : Nat) (rev : ℚ)
    (prev : Option RMap) (st : CogsAcc × RMap) :
    (gprAdjust none ys i rev prev st).1 = st.1 := rfl

/-- C1 amended: absent the Target-GPR override, for a year after the
first whose previous-year closing raw-material stock is non-zero, and
whose COGS group has an eligible opening raw-material row, the opening
raw-material stock used by the engine equals the previous year closing
stock; when the previous closing stock is zero the falsy-or falls back
to the entered value instead (the counterexample). -/
theorem C1_opening_stock_carry (ctx : Ctx)
    (hg : ctx.gprSettings = none)
    (hforced : ∀ g ∈ ctx.allGroups, ∀ r ∈ g.rows, r.name ≠ "_forced_opening_stock_rm")
    (hclose : ∀ g ∈ ctx.allGroups, ∀ r ∈ g.rows, r.name ≠ "Closing Stock (Raw Materials)")
    (k : Nat) (hc : (yrPL ctx k).closeStockRM ≠ 0)
    (hex : ((cogsRowsOf ctx.allGroups).any isOpeningRMRow) = true) :
    (yrPL ctx (k + 1)).openStockRM = (yrPL ctx k).closeStockRM := by
  have hprev : RMap.find? (yrMap ctx k) "Closing Stock (Raw Materials)" =
      some ((yrPL ctx k).closeStockRM) := by
    rw [yrMap, yrPL, yearOut_eq]
    exact computeYear_find_closeRM ctx k _ _ _ hclose
  have hpend : yearPending ctx (k + 1) = [] := yearPending_gpr_none ctx hg (k + 1)
  have h0 : yrPL ctx (k + 1) =
      (phaseP ctx (k + 1) (some (yrMap ctx k)) (ysIdAt ctx (k + 1))
        (yearPending ctx (k + 1))).2 := rfl
  rw [h0, phaseP_openStockRM_eq, hg, gprAdjust_none_acc, hpend]
  have hfnone : RMap.find? (RMap.set (RMap.set ([] : RMap) "Total Revenue"
      (totalRevenueOf ctx.allGroups (ysIdAt ctx (k + 1)))) "Total Sales"
      (totalRevenueOf ctx.allGroups (ysIdAt ctx (k + 1)))) "_forced_opening_stock_rm" = none := by
    rw [RMap.find?_set, if_neg (by decide), RMap.find?_set, if_neg (by decide)]
    rfl
  have hfold := cogsFold_openRM k (some (yrMap ctx k)) (ysIdAt ctx (k + 1))
    ((yrPL ctx k).closeStockRM) hc hprev (cogsRowsOf ctx.allGroups)
    (({} : CogsAcc), RMap.set (RMap.set ([] : RMap) "Total Revenue"
      (totalRevenueOf ctx.allGroups (ysIdAt ctx (k + 1)))) "Total Sales"
      (totalRevenueOf ctx.allGroups (ysIdAt ctx (k + 1))))
    hfnone (cogsRowsOf_names ctx.allGroups _ hforced)
  simp only [cogsScan]
  rw [hfold, if_pos hex]

/-- C1 witness: a concrete two-year report with a non-zero first-year
closing stock, whose second-year opening stock is exactly that closing
stock. -/
theorem C1_witness :
    (yrPL w2Ctx 0).closeStockRM ≠ 0 ∧
    (yrPL w2Ctx 1).openStockRM = (yrPL w2Ctx 0).closeStockRM :=
  ⟨by decide, C1_opening_stock_carry w2Ctx rfl (by decide) (by decide) 0
    (by decide) (by decide)⟩

/-! ## Claim C3: the written-down-value fixed asset cascade -/

/-- For a year after the first, the gross block reads the dedicated
net-block carry key of the previous map (falling back to the display
names only when the key is absent) and adds the dated additions. -/
theorem computeYear_grossBlock_succ (ctx : Ctx) (k2 : Nat) (pm : RMap) (yid : Nat)
    (m0 : RMap) :
    (computeYear ctx (k2 + 1) (some pm) yid m0).2.2.1.grossBlock =
      (match RMap.find? pm "_net_block_carry" with
       | some v => v
       | none => jsOrOpt (RMap.find? pm "Net block")
           (jsOrOpt (RMap.find? pm "Net Block") 0)) +
      assetAdditionsOf ctx.projectCostsData
        ((ctx.yearSettings.get? (k2 + 1)).map YearSetting.year) yid := rfl

/-- The net block of every year is the gross block minus the year
depreciation. -/
theorem computeYear_netBlock_eq (ctx : Ctx) (i : Nat) (prev : Option RMap) (yid : Nat)
    (m0 : RMap) :
    (computeYear ctx i prev yid m0).2.2.1.netBlock =
      (computeYear ctx i prev yid m0).2.2.1.grossBlock -
        (computeYear ctx i prev yid m0).2.1.depreciation := rfl

/-- C3: provided no input row is named by the internal carry key, the
carry key of every year map holds that year net block; the gross block
of every year after the first is the previous year net block plus the
additions dated into the year; and the net block of every year is the
gross block minus the year depreciation. -/
theorem C3_block_waterfall (ctx : Ctx)
    (hcarry : ∀ g ∈ ctx.allGroups, ∀ r ∈ g.rows, r.name ≠ "_net_block_carry") :
    (∀ k, RMap.find? (yrMap ctx k) "_net_block_carry" = some ((yrBS ctx k).netBlock)) ∧
    (∀ k, (yrBS ctx (k + 1)).grossBlock = (yrBS ctx k).netBlock +
      assetAdditionsOf ctx.projectCostsData
        ((ctx.yearSettings.get? (k + 1)).map YearSetting.year) (ysIdAt ctx (k + 1))) ∧
    (∀ k, (yrBS ctx k).netBlock =
      (yrBS ctx k).grossBlock - (yrPL ctx k).depreciation) := by
  have hfind : ∀ k, RMap.find? (yrMap ctx k) "_net_block_carry" =
      some ((yrBS ctx k).netBlock) := by
    intro k
    rw [yrMap, yrBS, yearOut_eq]
    exact computeYear_find_carry ctx k _ _ _ hcarry
  refine ⟨hfind, ?_, ?_⟩
  · intro k
    have h1 : yrBS ctx (k + 1) =
        (computeYear ctx (k + 1) (some (yrMap ctx k)) (ysIdAt ctx (k + 1))
          (yearPending ctx (k + 1))).2.2.1 := rfl
    rw [h1, computeYear_grossBlock_succ, hfind k]
  · intro k
    rw [yrBS, yrPL, yearOut_eq]
    exact computeYear_netBlock_eq ctx k _ _ _

/-- C3 witness: the block recurrence instantiated on the concrete
two-year input at the second year. -/
theorem C3_witness :
    (yrBS wCtx 1).grossBlock = (yrBS wCtx 0).netBlock +
      assetAdditionsOf wCtx.projectCostsData
        ((wCtx.yearSettings.get? 1).map YearSetting.year) (ysIdAt wCtx 1) :=
  (C3_block_waterfall wCtx (by decide)).2.1 0

/-! ## Claim C4: the Target-GPR solved closing stock -/

/-- For a year after the first with the feature enabled and positive
revenue, the Target-GPR block replaces the closing raw-material stock of
the accumulator by the algebraic solution of the target-COGS
equation. -/
theorem gprAdjust_succ_close (g : GPRSettings) (ys : List YearSetting) (k : Nat) (rev : ℚ)
    (prev : Option RMap) (st : CogsAcc × RMap)
    (hen : g.enabled = true) (hrev : rev > 0) :
    (gprAdjust (some g) ys (k + 1) rev prev st).1 =
      { st.1 with closeStockRM :=
          (st.1.openStockRM + st.1.purchasesRM + st.1.otherRMCosts) +
            st.1.manufacturingExpenses + (st.1.openWIP - st.1.closeWIP) +
            (st.1.openFG - st.1.closeFG) -
          (rev - rev * ((jsOrOpt (prev.bind (fun p => RMap.find? p "_actual_gpr")) 0 +
            (if k = 0 then g.firstYearIncrement else g.subsequentIncrement)) / 100)) } := by
  by_cases hk : k = 0
  · subst hk
    simp only [gprAdjust]
    rw [if_pos ⟨hen, hrev⟩]
    norm_num
  · simp only [gprAdjust]
    rw [if_pos ⟨hen, hrev⟩]
    have h1 : ((k + 1 : Nat) == 0) = false := by simp
    have h2 : ((k + 1 : Nat) == 1) = false := by simp [hk]
    simp [h1, h2, hk]

/-- The injection returned by the Target-GPR block of a year after the
first: the next input year (when in bounds) paired with the solved
closing stock. -/
theorem gprAdjust_succ_inj (g : GPRSettings) (ys : List YearSetting) (k : Nat) (rev : ℚ)
    (prev : Option RMap) (st : CogsAcc × RMap)
    (hen : g.enabled = true) (hrev : rev > 0) :
    (gprAdjust (some g) ys (k + 1) rev prev st).2.2 =
      if k + 2 < ys.length then
        (ys.get? (k + 2)).map (fun y => (y.id,
          (gprAdjust (some g) ys (k + 1) rev prev st).1.closeStockRM))
      else none := by
  by_cases hk : k = 0
  · subst hk
    simp only [gprAdjust]
    rw [if_pos ⟨hen, hrev⟩]
    norm_num
  · simp only [gprAdjust]
    rw [if_pos ⟨hen, hrev⟩]
    have h1 : ((k + 1 : Nat) == 0) = false := by simp
    have h2 : ((k + 1 : Nat) == 1) = false := by simp [hk]
    simp [h1, h2, hk]

/-- The post-revenue COGS accumulator-and-map state of the operating
statement (the argument of the Target-GPR block inside phaseP). -/
def phasePSt (ctx : Ctx) (i : Nat) (prev : Option RMap) (yid : Nat) (m0 : RMap) :
    CogsAcc × RMap :=
  cogsScan (cogsRowsOf ctx.allGroups) i prev yid
    (RMap.set (RMap.set m0 "Total Revenue" (totalRevenueOf ctx.allGroups yid))
      "Total Sales" (totalRevenueOf ctx.allGroups yid))

/-- The COGS accumulator of the operating statement after the Target-GPR
block. -/
def phasePAcc (ctx : Ctx) (i : Nat) (prev : Option RMap) (yid : Nat) (m0 : RMap) :
    CogsAcc :=
  (gprAdjust ctx.gprSettings ctx.yearSettings i (totalRevenueOf ctx.allGroups yid) prev
    (phasePSt ctx i prev yid m0)).1

theorem phaseP_grossProfit_eq (ctx : Ctx) (i : Nat) (prev : Option RMap) (yid : Nat)
    (m0 : RMap) :
    (phaseP ctx i prev yid m0).2.grossProfit =
      totalRevenueOf ctx.allGroups yid -
        ((((phasePAcc ctx i prev yid m0).openStockRM +
            (phasePAcc ctx i prev yid m0).purchasesRM +
            (phasePAcc ctx i prev yid m0).otherRMCosts -
            (phasePAcc ctx i prev yid m0).closeStockRM) +
          (phasePAcc ctx i prev yid m0).manufacturingExpenses +
          (phasePAcc ctx i prev yid m0).openWIP -
          (phasePAcc ctx i prev yid m0).closeWIP) +
          (phasePAcc ctx i prev yid m0).openFG -
          (phasePAcc ctx i prev yid m0).closeFG) := rfl

theorem phaseP_closeStockRM_eq (ctx : Ctx) (i : Nat) (prev : Option RMap) (yid : Nat)
    (m0 : RMap) :
    (phaseP ctx i prev yid m0).2.closeStockRM =
      (phasePAcc ctx i prev yid m0).closeStockRM := rfl

theorem phaseP_totalRevenue_eq (ctx : Ctx) (i : Nat) (prev : Option RMap) (yid : Nat)
    (m0 : RMap) :
    (phaseP ctx i prev yid m0).2.totalRevenue = totalRevenueOf ctx.allGroups yid := rfl

theorem phaseP_inject_eq (ctx : Ctx) (i : Nat) (prev : Option RMap) (yid : Nat)
    (m0 : RMap) :
    (phaseP ctx i prev yid m0).2.inject =
      (gprAdjust ctx.gprSettings ctx.yearSettings i (totalRevenueOf ctx.allGroups yid) prev
        (phasePSt ctx i prev yid m0)).2.2 := rfl

/-- The operating statement under an enabled Target-GPR setting, for a
year after the first with positive revenue: the gross profit hits the
target margin exactly, and the injection carries the solved closing
stock to the next input year. -/
theorem phaseP_target_gpr (ctx : Ctx) (g : GPRSettings) (hg : ctx.gprSettings = some g)
    (hen : g.enabled = true) (k : Nat) (prev : Option RMap) (yid : Nat) (m0 : RMap)
    (hrev : totalRevenueOf ctx.allGroups yid > 0) :
    (phaseP ctx (k + 1) prev yid m0).2.grossProfit =
      totalRevenueOf ctx.allGroups yid *
        ((jsOrOpt (prev.bind (fun p => RMap.find? p "_actual_gpr")) 0 +
          (if k = 0 then g.firstYearIncrement else g.subsequentIncrement)) / 100) ∧
    (phaseP ctx (k + 1) prev yid m0).2.inject =
      (if k + 2 < ctx.yearSettings.length then
        (ctx.yearSettings.get? (k + 2)).map (fun y => (y.id,
          (phaseP ctx (k + 1) prev yid m0).2.closeStockRM))
      else none) := by
  constructor
  · rw [phaseP_grossProfit_eq]
    unfold phasePAcc
    rw [hg, gprAdjust_succ_close g ctx.yearSettings k (totalRevenueOf ctx.allGroups yid)
      prev (phasePSt ctx (k + 1) prev yid m0) hen hrev]
    dsimp only
    ring
  · rw [phaseP_inject_eq, hg,
      gprAdjust_succ_inj g ctx.yearSettings k (totalRevenueOf ctx.allGroups yid)
        prev (phasePSt ctx (k + 1) prev yid m0) hen hrev,
      phaseP_closeStockRM_eq]
    unfold phasePAcc
    rw [hg]

/-- C4: with Target-GPR enabled, for every year after the first with
positive revenue, the gross profit equals revenue times target margin
over 100, where the target margin is the previous year stored margin
plus the first-year increment for the second year and the subsequent
increment after; and the solved closing stock is seeded as the next
input year forced opening stock. -/
theorem C4_target_gpr_solved_margin (ctx : Ctx) (g : GPRSettings)
    (hg : ctx.gprSettings = some g) (hen : g.enabled = true)
    (hsort : jsSortYears ctx.yearSettings = ctx.yearSettings)
    (hforced : ∀ g2 ∈ ctx.allGroups, ∀ r ∈ g2.rows, r.name ≠ "_forced_opening_stock_rm")
    (k : Nat) (hrev : (yrPL ctx (k + 1)).totalRevenue > 0) :
    (yrPL ctx (k + 1)).grossProfit = (yrPL ctx (k + 1)).totalRevenue *
      ((jsOrOpt (RMap.find? (yrMap ctx k) "_actual_gpr") 0 +
        (if k = 0 then g.firstYearIncrement else g.subsequentIncrement)) / 100) ∧
    (k + 2 < ctx.yearSettings.length →
      RMap.find? (yrMap ctx (k + 2)) "_forced_opening_stock_rm" =
        some ((yrPL ctx (k + 1)).closeStockRM)) := by
  have hyr : yrPL ctx (k + 1) =
      (phaseP ctx (k + 1) (some (yrMap ctx k)) (ysIdAt ctx (k + 1))
        (yearPending ctx (k + 1))).2 := rfl
  have hrev2 : totalRevenueOf ctx.allGroups (ysIdAt ctx (k + 1)) > 0 := by
    rw [hyr, phaseP_totalRevenue_eq] at hrev
    exact hrev
  obtain ⟨hgp, hinj⟩ := phaseP_target_gpr ctx g hg hen k (some (yrMap ctx k))
    (ysIdAt ctx (k + 1)) (yearPending ctx (k + 1)) hrev2
  constructor
  · rw [hyr, hgp, phaseP_totalRevenue_eq]
    rfl
  · intro hlen
    have hinj2 : (yrPL ctx (k + 1)).inject =
        some (ysIdAt ctx (k + 2), (yrPL ctx (k + 1)).closeStockRM) := by
      rw [hyr, hinj, if_pos hlen]
      have h1 : ctx.yearSettings.get? (k + 2) =
          some (ctx.yearSettings.getD (k + 2) ⟨0, ""⟩) := by
        rw [List.get?_eq_getElem?, List.getElem?_eq_getElem hlen,
          List.getD_eq_getElem _ _ hlen]
      rw [h1]
      simp only [Option.map_some']
      rw [show ysIdAt ctx (k + 2) = (ctx.yearSettings.getD (k + 2) ⟨0, ""⟩).id from by
        rw [ysIdAt, sortedYS, hsort]]
    have hpend : yearPending ctx (k + 2) =
        [("_forced_opening_stock_rm", (yrPL ctx (k + 1)).closeStockRM)] := by
      simp only [yearPending]
      rw [show (yearOut ctx (k + 1)).2.1.inject = (yrPL ctx (k + 1)).inject from rfl, hinj2]
      dsimp only
      rw [if_pos (show ysIdAt ctx (k + 2) = ysIdAt ctx (k + 1 + 1) from rfl)]
    rw [show yrMap ctx (k + 2) = (computeYear ctx (k + 2) (prevMapOf ctx (k + 2))
        (ysIdAt ctx (k + 2)) (yearPending ctx (k + 2))).1 from by rw [yrMap, yearOut_eq]]
    rw [computeYear_find_forced ctx (k + 2) _ _ _ hforced, hpend]
    simp [RMap.find?]

/-- A concrete enabled Target-GPR setting. -/
def gprS : GPRSettings := { enabled := true, firstYearIncrement := 5, subsequentIncrement := 2 }

/-- Three sorted years with Target-GPR enabled. -/
def gCtx : Ctx :=
  { allGroups := [wRevGroup, w2CogsGroup],
    yearSettings := [⟨1, "2024-2025"⟩, ⟨2, "2025-2026"⟩, ⟨3, "2026-2027"⟩],
    taxRegime := "domestic_22",
    gprSettings := some gprS }

set_option maxRecDepth 100000 in
set_option maxHeartbeats 1000000 in
/-- C4 witness: the second year of the concrete Target-GPR report has
positive revenue, hits its target margin exactly, and seeds the third
year with its solved closing stock. -/
theorem C4_witness :
    (yrPL gCtx 1).totalRevenue > 0 ∧
    ((yrPL gCtx 1).grossProfit = (yrPL gCtx 1).totalRevenue *
      ((jsOrOpt (RMap.find? (yrMap gCtx 0) "_actual_gpr") 0 +
        (if (0 : Nat) = 0 then gprS.firstYearIncrement else gprS.subsequentIncrement)) / 100) ∧
    (0 + 2 < gCtx.yearSettings.length →
      RMap.find? (yrMap gCtx 2) "_forced_opening_stock_rm" =
        some ((yrPL gCtx 1).closeStockRM))) := by
  have hrev : (yrPL gCtx 1).totalRevenue > 0 := by
    rw [show (yrPL gCtx 1).totalRevenue =
      totalRevenueOf gCtx.allGroups (ysIdAt gCtx 1) from rfl]
    norm_num +decide [totalRevenueOf, gCtx, wRevGroup, w2CogsGroup, ysIdAt, sortedYS,
      jsSortYears, sSort, sInsert, getYearNum, firstFourDigits, digitsToNat, dpValue,
      rowEligible, jsLower, jsIncludes, infixAux, jsStartsWith]
  exact ⟨hrev, C4_target_gpr_solved_margin gCtx gprS rfl rfl rfl (by decide) 0 hrev⟩

/-! ## Claim C8: ratio zero-guards and the unwritten debt-equity ratio -/

/-- A minimal one-year computation (every ratio denominator is zero). -/
def ctx8 : Ctx :=
  { allGroups := [],
    yearSettings := [⟨1, "2024-2025"⟩],
    taxRegime := "domestic_22" }

set_option maxRecDepth 200000 in
set_option maxHeartbeats 2000000 in
/-- C8: on a computation whose denominators are all zero, every ratio
key the engine writes holds 0 (the zero-denominator guard), the
debt-equity ratio scalar is likewise guarded to 0, but no Debt Equity
Ratio key is ever written to the result map: the computed debt-equity
value is dropped. -/
theorem C8_ratio_guards_and_missing_debt_equity :
    RMap.find? (Store.getY (calculateAll ctx8) 1) "Debt Equity Ratio" = none ∧
    (yrCF ctx8 0).debtEquity = 0 ∧
    RMap.find? (Store.getY (calculateAll ctx8) 1) "Current ratio" = some 0 ∧
    RMap.find? (Store.getY (calculateAll ctx8) 1) "Quick ratio" = some 0 ∧
    RMap.find? (Store.getY (calculateAll ctx8) 1) "Fixed Assets Coverage Ratio" = some 0 ∧
    RMap.find? (Store.getY (calculateAll ctx8) 1) "Interest coverage ratio" = some 0 ∧
    RMap.find? (Store.getY (calculateAll ctx8) 1) "Debt Service Coverage Ratio (DSCR)" = some 0 ∧
    RMap.find? (Store.getY (calculateAll ctx8) 1) "Return on Capital Employed (ROCE)" = some 0 ∧
    RMap.find? (Store.getY (calculateAll ctx8) 1) "Net profit margin" = some 0 ∧
    RMap.find? (Store.getY (calculateAll ctx8) 1) "Return on Net worth" = some 0 ∧
    RMap.find? (Store.getY (calculateAll ctx8) 1) "Inventory turnover ratio" = some 0 ∧
    RMap.find? (Store.getY (calculateAll ctx8) 1) "Fixed asset turnover ratio" = some 0 ∧
    RMap.find? (Store.getY (calculateAll ctx8) 1) "Asset turnover ratio" = some 0 ∧
    RMap.find? (Store.getY (calculateAll ctx8) 1) "Gross Profit Ratio" = some 0 := by
  norm_num +decide [calculateAll, runYears, computeYear, phaseP, phaseB, phaseC, ctx8,
    yrCF, yearOut, ysIdAt, sortedYS, jsSortYears, sSort, sInsert, getYearNum,
    firstFourDigits, digitsToNat, Store.getY, Store.setY, RMap.find?, RMap.set, RMap.get,
    RMap.has, totalRevenueOf, cogsRowsOf, cogsScan, cogsStep, cogsOpeningVal,
    isOpeningRMName, gprAdjust, wcInterestCalc, wcInterestStep, wcOf, loanInterestWrites,
    loanAgg, loanNameOf, otherInterestSum, sumGroup, sumGroupRows, sumGroupRow,
    groupMatches, normAlnum, collapseWs, collapseWsAux, getVal, getValGroups, getValRows,
    getValRow, dpValue, rowEligible, jsLower, jsIncludes, infixAux, jsStartsWith, jsTrim,
    isWs, isAlnumLower, jsOrOpt, jsOrQ, jsOrStr, jsTruthyOpt, assetAdditionsOf,
    fixedAssetLoopWrites, fixedRowStep, wcLimitStep, loanClosingWrites,
    sumAllGroupsByPageType, sumAllRow, calculateTax, scanGroups, scanGroupStep, scanStep,
    scanCurrVal, getRowCFBucket, groupBucketOf, deltaKey, aposS, partnersCapital,
    auditCalc, jsParseInt, beforeDash]

end ProjectReport
